import Mathlib

/-!
Verification of the request dispatch and validation pipeline of the
`backend-rust-axum` generated server (articles / comments / favorites /
profiles / tags / users REST API).

The development shallowly embeds:
  * the model structs of `src/models.rs` (serde field attributes included),
  * the per-endpoint validation functions and dispatch functions of
    `src/server/mod.rs`,
  * the handler-contract traits of `src/apis/*.rs` as a record of operations.

JSON bodies are represented as a value tree; `serde_json::to_vec` is embedded
as encoding into that tree.  Each dispatcher returns, alongside the HTTP
response, an instrumentation record listing the keys passed to
`extract_claims_from_header` and counting validation and handler invocations —
this models observation through call-counting stubs.
-/

namespace Conduit

/-- JSON value tree (the decoded form of a request or response body). -/
inductive Json where
  | null : Json
  | bool (b : Bool) : Json
  | num (n : Int) : Json
  | str (s : String) : Json
  | arr (elems : List Json) : Json
  | obj (fields : List (String × Json)) : Json
deriving Repr

/-- Look a key up in the field list of a JSON object. -/
def jsonLookup (fields : List (String × Json)) (key : String) : Option Json :=
  match fields with
  | [] => none
  | (k, v) :: rest => if k == key then some v else jsonLookup rest key

/-- Join a field-path prefix with a field name (`"" ++ "title" = "title"`,
`"article" ++ "title" = "article.title"`). -/
def joinPath (path field : String) : String :=
  if path == "" then field else path ++ "." ++ field

/-! ## Data model (`src/models.rs`)

`i32` is embedded as `Int`; `chrono::DateTime<chrono::Utc>` is embedded as its
RFC 3339 string form, which is also how serde serializes it. -/

abbrev DateTime := String

/-- `models::Profile`. -/
structure Profile where
  username : String
  bio : String
  image : String
  following : Bool
deriving Repr, DecidableEq

/-- `models::Article`. -/
structure Article where
  slug : String
  title : String
  description : String
  body : String
  tag_list : List String
  created_at : DateTime
  updated_at : DateTime
  favorited : Bool
  favorites_count : Int
  author : Profile
deriving Repr, DecidableEq

/-- `models::NewArticle` (`tagList` is optional and skipped when absent). -/
structure NewArticle where
  title : String
  description : String
  body : String
  tag_list : Option (List String)
deriving Repr, DecidableEq

/-- `models::CreateArticleRequest`. -/
structure CreateArticleRequest where
  article : NewArticle
deriving Repr, DecidableEq

/-- `models::UpdateArticle` (all fields optional). -/
structure UpdateArticle where
  title : Option String
  description : Option String
  body : Option String
deriving Repr, DecidableEq

/-- `models::UpdateArticleRequest`. -/
structure UpdateArticleRequest where
  article : UpdateArticle
deriving Repr, DecidableEq

/-- `models::Comment`. -/
structure Comment where
  id : Int
  created_at : DateTime
  updated_at : DateTime
  body : String
  author : Profile
deriving Repr, DecidableEq

/-- `models::NewComment`. -/
structure NewComment where
  body : String
deriving Repr, DecidableEq

/-- `models::CreateArticleCommentRequest`. -/
structure CreateArticleCommentRequest where
  comment : NewComment
deriving Repr, DecidableEq

/-- `models::NewUser`. -/
structure NewUser where
  username : String
  email : String
  password : String
deriving Repr, DecidableEq

/-- `models::CreateUserRequest`. -/
structure CreateUserRequest where
  user : NewUser
deriving Repr, DecidableEq

/-- `models::LoginUser`. -/
structure LoginUser where
  email : String
  password : String
deriving Repr, DecidableEq

/-- `models::LoginRequest`. -/
structure LoginRequest where
  user : LoginUser
deriving Repr, DecidableEq

/-- `models::UpdateUser` (all fields optional). -/
structure UpdateUser where
  email : Option String
  password : Option String
  username : Option String
  bio : Option String
  image : Option String
deriving Repr, DecidableEq

/-- `models::UpdateCurrentUserRequest`. -/
structure UpdateCurrentUserRequest where
  user : UpdateUser
deriving Repr, DecidableEq

/-- `models::User`. -/
structure User where
  email : String
  token : String
  username : String
  bio : String
  image : String
deriving Repr, DecidableEq

/-- `models::Login200Response`. -/
structure Login200Response where
  user : User
deriving Repr, DecidableEq

/-- `models::GenericErrorModelErrors`. -/
structure GenericErrorModelErrors where
  body : List String
deriving Repr, DecidableEq

/-- `models::GenericErrorModel`. -/
structure GenericErrorModel where
  errors : GenericErrorModelErrors
deriving Repr, DecidableEq

/-- `models::CreateArticle201Response`. -/
structure CreateArticle201Response where
  article : Article
deriving Repr, DecidableEq

/-- `models::GetArticlesFeed200ResponseArticlesInner`. -/
structure GetArticlesFeed200ResponseArticlesInner where
  slug : String
  title : String
  description : String
  tag_list : List String
  created_at : DateTime
  updated_at : DateTime
  favorited : Bool
  favorites_count : Int
  author : Profile
deriving Repr, DecidableEq

/-- `models::GetArticlesFeed200Response`. -/
structure GetArticlesFeed200Response where
  articles : List GetArticlesFeed200ResponseArticlesInner
  articles_count : Int
deriving Repr, DecidableEq

/-- `models::CreateArticleComment200Response`. -/
structure CreateArticleComment200Response where
  comment : Comment
deriving Repr, DecidableEq

/-- `models::GetArticleComments200Response`. -/
structure GetArticleComments200Response where
  comments : List Comment
deriving Repr, DecidableEq

/-- `models::GetProfileByUsername200Response`. -/
structure GetProfileByUsername200Response where
  profile : Profile
deriving Repr, DecidableEq

/-- `models::GetTags200Response`. -/
structure GetTags200Response where
  tags : List String
deriving Repr, DecidableEq

/-- `models::GetArticlesQueryParams`: `offset` carries `range(min = 0)`,
`limit` carries `range(min = 1)`; the string filters are unconstrained. -/
structure GetArticlesQueryParams where
  tag : Option String
  author : Option String
  favorited : Option String
  offset : Option Int
  limit : Option Int
deriving Repr, DecidableEq

/-- `models::GetArticlesFeedQueryParams`: `offset` carries `range(min = 0)`,
`limit` carries `range(min = 1)`. -/
structure GetArticlesFeedQueryParams where
  offset : Option Int
  limit : Option Int
deriving Repr, DecidableEq

/-- `models::DeleteArticlePathParams`. -/
structure DeleteArticlePathParams where
  slug : String
deriving Repr, DecidableEq

/-- `models::GetArticlePathParams`. -/
structure GetArticlePathParams where
  slug : String
deriving Repr, DecidableEq

/-- `models::UpdateArticlePathParams`. -/
structure UpdateArticlePathParams where
  slug : String
deriving Repr, DecidableEq

/-- `models::CreateArticleCommentPathParams`. -/
structure CreateArticleCommentPathParams where
  slug : String
deriving Repr, DecidableEq

/-- `models::DeleteArticleCommentPathParams`. -/
structure DeleteArticleCommentPathParams where
  slug : String
  id : Int
deriving Repr, DecidableEq

/-- `models::GetArticleCommentsPathParams`. -/
structure GetArticleCommentsPathParams where
  slug : String
deriving Repr, DecidableEq

/-- `models::CreateArticleFavoritePathParams`. -/
structure CreateArticleFavoritePathParams where
  slug : String
deriving Repr, DecidableEq

/-- `models::DeleteArticleFavoritePathParams`. -/
structure DeleteArticleFavoritePathParams where
  slug : String
deriving Repr, DecidableEq

/-- `models::FollowUserByUsernamePathParams`. -/
structure FollowUserByUsernamePathParams where
  username : String
deriving Repr, DecidableEq

/-- `models::GetProfileByUsernamePathParams`. -/
structure GetProfileByUsernamePathParams where
  username : String
deriving Repr, DecidableEq

/-- `models::UnfollowUserByUsernamePathParams`. -/
structure UnfollowUserByUsernamePathParams where
  username : String
deriving Repr, DecidableEq

/-! ## Validation layer

The `validator` crate's derived `validate()` evaluates the declared constraint
of every field and accumulates the failures into a `ValidationErrors`
collection keyed by field name; only `range` constraints occur in this schema,
so an error collection is embedded as a list of `(field name, error codes)`
pairs.  `#[validate(nested)]` records the inner value's errors under the outer
field name. -/

/-- `validator::ValidationErrors`: field name → error codes recorded for it. -/
abbrev ValidationErrors := List (String × List String)

/-- The `Display` rendering of a `ValidationErrors` collection
(`validation.unwrap_err().to_string()` in the dispatchers): one entry per
field, each naming the field and its error codes. -/
def displayValidationErrors (errs : ValidationErrors) : String :=
  String.intercalate "; "
    (errs.map (fun e => e.1 ++ ": " ++ String.intercalate ", " e.2))

/-- `#[validate(range(min = lo))]` on an `Option` field: an absent value
passes; a present value fails exactly when it is below the bound. -/
def rangeMinErrors (field : String) (lo : Int) (v : Option Int) :
    ValidationErrors :=
  match v with
  | none => []
  | some x => if x < lo then [(field, ["range"])] else []

/-- `#[validate(nested)]` on a field: the inner value's errors, if any, are
recorded under the field's name. -/
def nestedErrors (field : String) (inner : Except ValidationErrors Unit) :
    Except ValidationErrors Unit :=
  match inner with
  | Except.ok () => Except.ok ()
  | Except.error errs =>
      Except.error (errs.map (fun e => (field ++ "." ++ e.1, e.2)))

/-- Derived `Validate` for `GetArticlesQueryParams`: checks `offset ≥ 0` and
`limit ≥ 1`, accumulating both failures. -/
def GetArticlesQueryParams.validate (q : GetArticlesQueryParams) :
    Except ValidationErrors Unit :=
  let errs := rangeMinErrors "offset" 0 q.offset ++ rangeMinErrors "limit" 1 q.limit
  if errs.isEmpty then Except.ok () else Except.error errs

/-- Derived `Validate` for `GetArticlesFeedQueryParams`: checks `offset ≥ 0`
and `limit ≥ 1`, accumulating both failures. -/
def GetArticlesFeedQueryParams.validate (q : GetArticlesFeedQueryParams) :
    Except ValidationErrors Unit :=
  let errs := rangeMinErrors "offset" 0 q.offset ++ rangeMinErrors "limit" 1 q.limit
  if errs.isEmpty then Except.ok () else Except.error errs

/-- Derived `Validate` for path-parameter structs and request bodies: none of
their fields carries a constraint attribute, so validation always succeeds. -/
def validateUnconstrained {α : Type} (_ : α) : Except ValidationErrors Unit :=
  Except.ok ()

/-! ### Per-endpoint validation functions (`src/server/mod.rs`)

Each mirrors the source literally: `x.validate()?` sequencing included.  The
body validators (`CreateArticleBodyValidator` etc.) wrap the body in a struct
whose single `body` field is marked `#[validate(nested)]`. -/

/-- `create_article_validation`. -/
def create_article_validation (body : CreateArticleRequest) :
    Except ValidationErrors CreateArticleRequest :=
  match nestedErrors "body" (validateUnconstrained body) with
  | Except.error e => Except.error e
  | Except.ok () => Except.ok body

/-- `delete_article_validation`. -/
def delete_article_validation (path_params : DeleteArticlePathParams) :
    Except ValidationErrors DeleteArticlePathParams :=
  match validateUnconstrained path_params with
  | Except.error e => Except.error e
  | Except.ok () => Except.ok path_params

/-- `get_article_validation`. -/
def get_article_validation (path_params : GetArticlePathParams) :
    Except ValidationErrors GetArticlePathParams :=
  match validateUnconstrained path_params with
  | Except.error e => Except.error e
  | Except.ok () => Except.ok path_params

/-- `get_articles_validation`. -/
def get_articles_validation (query_params : GetArticlesQueryParams) :
    Except ValidationErrors GetArticlesQueryParams :=
  match query_params.validate with
  | Except.error e => Except.error e
  | Except.ok () => Except.ok query_params

/-- `get_articles_feed_validation`. -/
def get_articles_feed_validation (query_params : GetArticlesFeedQueryParams) :
    Except ValidationErrors GetArticlesFeedQueryParams :=
  match query_params.validate with
  | Except.error e => Except.error e
  | Except.ok () => Except.ok query_params

/-- `update_article_validation` (path params first, then the body wrapper:
sequenced with `?`). -/
def update_article_validation (path_params : UpdateArticlePathParams)
    (body : UpdateArticleRequest) :
    Except ValidationErrors (UpdateArticlePathParams × UpdateArticleRequest) :=
  match validateUnconstrained path_params with
  | Except.error e => Except.error e
  | Except.ok () =>
    match nestedErrors "body" (validateUnconstrained body) with
    | Except.error e => Except.error e
    | Except.ok () => Except.ok (path_params, body)

/-- `create_article_comment_validation`. -/
def create_article_comment_validation (path_params : CreateArticleCommentPathParams)
    (body : CreateArticleCommentRequest) :
    Except ValidationErrors (CreateArticleCommentPathParams × CreateArticleCommentRequest) :=
  match validateUnconstrained path_params with
  | Except.error e => Except.error e
  | Except.ok () =>
    match nestedErrors "body" (validateUnconstrained body) with
    | Except.error e => Except.error e
    | Except.ok () => Except.ok (path_params, body)

/-- `delete_article_comment_validation`. -/
def delete_article_comment_validation (path_params : DeleteArticleCommentPathParams) :
    Except ValidationErrors DeleteArticleCommentPathParams :=
  match validateUnconstrained path_params with
  | Except.error e => Except.error e
  | Except.ok () => Except.ok path_params

/-- `get_article_comments_validation`. -/
def get_article_comments_validation (path_params : GetArticleCommentsPathParams) :
    Except ValidationErrors GetArticleCommentsPathParams :=
  match validateUnconstrained path_params with
  | Except.error e => Except.error e
  | Except.ok () => Except.ok path_params

/-- `create_article_favorite_validation`. -/
def create_article_favorite_validation (path_params : CreateArticleFavoritePathParams) :
    Except ValidationErrors CreateArticleFavoritePathParams :=
  match validateUnconstrained path_params with
  | Except.error e => Except.error e
  | Except.ok () => Except.ok path_params

/-- `delete_article_favorite_validation`. -/
def delete_article_favorite_validation (path_params : DeleteArticleFavoritePathParams) :
    Except ValidationErrors DeleteArticleFavoritePathParams :=
  match validateUnconstrained path_params with
  | Except.error e => Except.error e
  | Except.ok () => Except.ok path_params

/-- `follow_user_by_username_validation`. -/
def follow_user_by_username_validation (path_params : FollowUserByUsernamePathParams) :
    Except ValidationErrors FollowUserByUsernamePathParams :=
  match validateUnconstrained path_params with
  | Except.error e => Except.error e
  | Except.ok () => Except.ok path_params

/-- `get_profile_by_username_validation`. -/
def get_profile_by_username_validation (path_params : GetProfileByUsernamePathParams) :
    Except ValidationErrors GetProfileByUsernamePathParams :=
  match validateUnconstrained path_params with
  | Except.error e => Except.error e
  | Except.ok () => Except.ok path_params

/-- `unfollow_user_by_username_validation`. -/
def unfollow_user_by_username_validation (path_params : UnfollowUserByUsernamePathParams) :
    Except ValidationErrors UnfollowUserByUsernamePathParams :=
  match validateUnconstrained path_params with
  | Except.error e => Except.error e
  | Except.ok () => Except.ok path_params

/-- `get_tags_validation`. -/
def get_tags_validation : Except ValidationErrors Unit :=
  Except.ok ()

/-- `create_user_validation`. -/
def create_user_validation (body : CreateUserRequest) :
    Except ValidationErrors CreateUserRequest :=
  match nestedErrors "body" (validateUnconstrained body) with
  | Except.error e => Except.error e
  | Except.ok () => Except.ok body

/-- `get_current_user_validation`. -/
def get_current_user_validation : Except ValidationErrors Unit :=
  Except.ok ()

/-- `login_validation`. -/
def login_validation (body : LoginRequest) :
    Except ValidationErrors LoginRequest :=
  match nestedErrors "body" (validateUnconstrained body) with
  | Except.error e => Except.error e
  | Except.ok () => Except.ok body

/-- `update_current_user_validation`. -/
def update_current_user_validation (body : UpdateCurrentUserRequest) :
    Except ValidationErrors UpdateCurrentUserRequest :=
  match nestedErrors "body" (validateUnconstrained body) with
  | Except.error e => Except.error e
  | Except.ok () => Except.ok body

/-! ## JSON decoding and encoding

Decoding embeds the serde `Deserialize` derives of `src/models.rs` (field
renames as declared; `Option` fields are optional, an absent or `null` value
giving `none`; a missing required field is an error naming the field's full
path, e.g. `article.title missing`).  Encoding embeds the `Serialize` derives
(`skip_serializing_if = "Option::is_none"` respected). -/

/-- Require a field of a JSON object; a missing field reports the field's full
path (e.g. `article.title missing`). -/
def requireField (path : String) (fields : List (String × Json)) (key : String) :
    Except String Json :=
  match jsonLookup fields key with
  | some v => Except.ok v
  | none => Except.error (joinPath path key ++ " missing")

/-- Decode a JSON string. -/
def asString (path : String) : Json → Except String String
  | Json.str s => Except.ok s
  | _ => Except.error (path ++ ": expected string")

/-- Decode a JSON boolean. -/
def asBool (path : String) : Json → Except String Bool
  | Json.bool b => Except.ok b
  | _ => Except.error (path ++ ": expected boolean")

/-- Decode a JSON number. -/
def asInt (path : String) : Json → Except String Int
  | Json.num n => Except.ok n
  | _ => Except.error (path ++ ": expected number")

/-- Decode every element of a JSON array as a string. -/
def elemsAsStrings (path : String) : List Json → Except String (List String)
  | [] => Except.ok []
  | j :: rest => do
      let s ← asString path j
      let ss ← elemsAsStrings path rest
      Except.ok (s :: ss)

/-- Decode a JSON array of strings. -/
def asStringList (path : String) : Json → Except String (List String)
  | Json.arr elems => elemsAsStrings path elems
  | _ => Except.error (path ++ ": expected array")

/-- Decode a required string field. -/
def reqString (path : String) (fields : List (String × Json)) (key : String) :
    Except String String := do
  let v ← requireField path fields key
  asString (joinPath path key) v

/-- Decode an optional string field (absent or `null` gives `none`). -/
def optString (path : String) (fields : List (String × Json)) (key : String) :
    Except String (Option String) :=
  match jsonLookup fields key with
  | none => Except.ok none
  | some Json.null => Except.ok none
  | some v => do
      let s ← asString (joinPath path key) v
      Except.ok (some s)

/-- Decode an optional string-array field (absent or `null` gives `none`). -/
def optStringList (path : String) (fields : List (String × Json)) (key : String) :
    Except String (Option (List String)) :=
  match jsonLookup fields key with
  | none => Except.ok none
  | some Json.null => Except.ok none
  | some v => do
      let xs ← asStringList (joinPath path key) v
      Except.ok (some xs)

/-- serde decode of `models::NewArticle`. -/
def decodeNewArticle (path : String) (j : Json) : Except String NewArticle :=
  match j with
  | Json.obj fields => do
      let title ← reqString path fields "title"
      let description ← reqString path fields "description"
      let body ← reqString path fields "body"
      let tag_list ← optStringList path fields "tagList"
      Except.ok { title, description, body, tag_list }
  | _ => Except.error (path ++ ": expected object")

/-- serde decode of `models::CreateArticleRequest`. -/
def decodeCreateArticleRequest (j : Json) : Except String CreateArticleRequest :=
  match j with
  | Json.obj fields => do
      let v ← requireField "" fields "article"
      let article ← decodeNewArticle "article" v
      Except.ok { article }
  | _ => Except.error "expected object"

/-- serde decode of `models::UpdateArticle`. -/
def decodeUpdateArticle (path : String) (j : Json) : Except String UpdateArticle :=
  match j with
  | Json.obj fields => do
      let title ← optString path fields "title"
      let description ← optString path fields "description"
      let body ← optString path fields "body"
      Except.ok { title, description, body }
  | _ => Except.error (path ++ ": expected object")

/-- serde decode of `models::UpdateArticleRequest`. -/
def decodeUpdateArticleRequest (j : Json) : Except String UpdateArticleRequest :=
  match j with
  | Json.obj fields => do
      let v ← requireField "" fields "article"
      let article ← decodeUpdateArticle "article" v
      Except.ok { article }
  | _ => Except.error "expected object"

/-- serde decode of `models::NewComment`. -/
def decodeNewComment (path : String) (j : Json) : Except String NewComment :=
  match j with
  | Json.obj fields => do
      let body ← reqString path fields "body"
      Except.ok { body }
  | _ => Except.error (path ++ ": expected object")

/-- serde decode of `models::CreateArticleCommentRequest`. -/
def decodeCreateArticleCommentRequest (j : Json) :
    Except String CreateArticleCommentRequest :=
  match j with
  | Json.obj fields => do
      let v ← requireField "" fields "comment"
      let comment ← decodeNewComment "comment" v
      Except.ok { comment }
  | _ => Except.error "expected object"

/-- serde decode of `models::NewUser`. -/
def decodeNewUser (path : String) (j : Json) : Except String NewUser :=
  match j with
  | Json.obj fields => do
      let username ← reqString path fields "username"
      let email ← reqString path fields "email"
      let password ← reqString path fields "password"
      Except.ok { username, email, password }
  | _ => Except.error (path ++ ": expected object")

/-- serde decode of `models::CreateUserRequest`. -/
def decodeCreateUserRequest (j : Json) : Except String CreateUserRequest :=
  match j with
  | Json.obj fields => do
      let v ← requireField "" fields "user"
      let user ← decodeNewUser "user" v
      Except.ok { user }
  | _ => Except.error "expected object"

/-- serde decode of `models::LoginUser`. -/
def decodeLoginUser (path : String) (j : Json) : Except String LoginUser :=
  match j with
  | Json.obj fields => do
      let email ← reqString path fields "email"
      let password ← reqString path fields "password"
      Except.ok { email, password }
  | _ => Except.error (path ++ ": expected object")

/-- serde decode of `models::LoginRequest`. -/
def decodeLoginRequest (j : Json) : Except String LoginRequest :=
  match j with
  | Json.obj fields => do
      let v ← requireField "" fields "user"
      let user ← decodeLoginUser "user" v
      Except.ok { user }
  | _ => Except.error "expected object"

/-- serde decode of `models::UpdateUser`. -/
def decodeUpdateUser (path : String) (j : Json) : Except String UpdateUser :=
  match j with
  | Json.obj fields => do
      let email ← optString path fields "email"
      let password ← optString path fields "password"
      let username ← optString path fields "username"
      let bio ← optString path fields "bio"
      let image ← optString path fields "image"
      Except.ok { email, password, username, bio, image }
  | _ => Except.error (path ++ ": expected object")

/-- serde decode of `models::UpdateCurrentUserRequest`. -/
def decodeUpdateCurrentUserRequest (j : Json) :
    Except String UpdateCurrentUserRequest :=
  match j with
  | Json.obj fields => do
      let v ← requireField "" fields "user"
      let user ← decodeUpdateUser "user" v
      Except.ok { user }
  | _ => Except.error "expected object"

/-- serde decode of `models::Profile`. -/
def decodeProfile (path : String) (j : Json) : Except String Profile :=
  match j with
  | Json.obj fields => do
      let username ← reqString path fields "username"
      let bio ← reqString path fields "bio"
      let image ← reqString path fields "image"
      let following ← do
        let v ← requireField path fields "following"
        asBool (joinPath path "following") v
      Except.ok { username, bio, image, following }
  | _ => Except.error (path ++ ": expected object")

/-- serde decode of `models::Article`. -/
def decodeArticle (path : String) (j : Json) : Except String Article :=
  match j with
  | Json.obj fields => do
      let slug ← reqString path fields "slug"
      let title ← reqString path fields "title"
      let description ← reqString path fields "description"
      let body ← reqString path fields "body"
      let tag_list ← do
        let v ← requireField path fields "tagList"
        asStringList (joinPath path "tagList") v
      let created_at ← reqString path fields "createdAt"
      let updated_at ← reqString path fields "updatedAt"
      let favorited ← do
        let v ← requireField path fields "favorited"
        asBool (joinPath path "favorited") v
      let favorites_count ← do
        let v ← requireField path fields "favoritesCount"
        asInt (joinPath path "favoritesCount") v
      let author ← do
        let v ← requireField path fields "author"
        decodeProfile (joinPath path "author") v
      Except.ok { slug, title, description, body, tag_list, created_at,
                  updated_at, favorited, favorites_count, author }
  | _ => Except.error (path ++ ": expected object")

/-- serde decode of `models::CreateArticle201Response`. -/
def decodeCreateArticle201Response (j : Json) :
    Except String CreateArticle201Response :=
  match j with
  | Json.obj fields => do
      let v ← requireField "" fields "article"
      let article ← decodeArticle "article" v
      Except.ok { article }
  | _ => Except.error "expected object"

/-- serde decode of `models::User`. -/
def decodeUser (path : String) (j : Json) : Except String User :=
  match j with
  | Json.obj fields => do
      let email ← reqString path fields "email"
      let token ← reqString path fields "token"
      let username ← reqString path fields "username"
      let bio ← reqString path fields "bio"
      let image ← reqString path fields "image"
      Except.ok { email, token, username, bio, image }
  | _ => Except.error (path ++ ": expected object")

/-- serde decode of `models::Login200Response`. -/
def decodeLogin200Response (j : Json) : Except String Login200Response :=
  match j with
  | Json.obj fields => do
      let v ← requireField "" fields "user"
      let user ← decodeUser "user" v
      Except.ok { user }
  | _ => Except.error "expected object"

/-- serde encode of `models::Profile`. -/
def encodeProfile (p : Profile) : Json :=
  Json.obj [("username", Json.str p.username), ("bio", Json.str p.bio),
            ("image", Json.str p.image), ("following", Json.bool p.following)]

/-- serde encode of `models::Article`. -/
def encodeArticle (a : Article) : Json :=
  Json.obj [("slug", Json.str a.slug), ("title", Json.str a.title),
            ("description", Json.str a.description), ("body", Json.str a.body),
            ("tagList", Json.arr (a.tag_list.map Json.str)),
            ("createdAt", Json.str a.created_at),
            ("updatedAt", Json.str a.updated_at),
            ("favorited", Json.bool a.favorited),
            ("favoritesCount", Json.num a.favorites_count),
            ("author", encodeProfile a.author)]

/-- serde encode of `models::CreateArticle201Response`. -/
def encodeCreateArticle201Response (r : CreateArticle201Response) : Json :=
  Json.obj [("article", encodeArticle r.article)]

/-- serde encode of `models::Comment`. -/
def encodeComment (c : Comment) : Json :=
  Json.obj [("id", Json.num c.id), ("createdAt", Json.str c.created_at),
            ("updatedAt", Json.str c.updated_at), ("body", Json.str c.body),
            ("author", encodeProfile c.author)]

/-- serde encode of `models::CreateArticleComment200Response`. -/
def encodeCreateArticleComment200Response (r : CreateArticleComment200Response) : Json :=
  Json.obj [("comment", encodeComment r.comment)]

/-- serde encode of `models::GetArticleComments200Response`. -/
def encodeGetArticleComments200Response (r : GetArticleComments200Response) : Json :=
  Json.obj [("comments", Json.arr (r.comments.map encodeComment))]

/-- serde encode of `models::GetArticlesFeed200ResponseArticlesInner`. -/
def encodeGetArticlesFeed200ResponseArticlesInner
    (a : GetArticlesFeed200ResponseArticlesInner) : Json :=
  Json.obj [("slug", Json.str a.slug), ("title", Json.str a.title),
            ("description", Json.str a.description),
            ("tagList", Json.arr (a.tag_list.map Json.str)),
            ("createdAt", Json.str a.created_at),
            ("updatedAt", Json.str a.updated_at),
            ("favorited", Json.bool a.favorited),
            ("favoritesCount", Json.num a.favorites_count),
            ("author", encodeProfile a.author)]

/-- serde encode of `models::GetArticlesFeed200Response`. -/
def encodeGetArticlesFeed200Response (r : GetArticlesFeed200Response) : Json :=
  Json.obj [("articles",
             Json.arr (r.articles.map encodeGetArticlesFeed200ResponseArticlesInner)),
            ("articlesCount", Json.num r.articles_count)]

/-- serde encode of `models::GetProfileByUsername200Response`. -/
def encodeGetProfileByUsername200Response (r : GetProfileByUsername200Response) : Json :=
  Json.obj [("profile", encodeProfile r.profile)]

/-- serde encode of `models::GetTags200Response`. -/
def encodeGetTags200Response (r : GetTags200Response) : Json :=
  Json.obj [("tags", Json.arr (r.tags.map Json.str))]

/-- serde encode of `models::GenericErrorModelErrors`. -/
def encodeGenericErrorModelErrors (e : GenericErrorModelErrors) : Json :=
  Json.obj [("body", Json.arr (e.body.map Json.str))]

/-- serde encode of `models::GenericErrorModel`. -/
def encodeGenericErrorModel (e : GenericErrorModel) : Json :=
  Json.obj [("errors", encodeGenericErrorModelErrors e.errors)]

/-- serde encode of `models::User`. -/
def encodeUser (u : User) : Json :=
  Json.obj [("email", Json.str u.email), ("token", Json.str u.token),
            ("username", Json.str u.username), ("bio", Json.str u.bio),
            ("image", Json.str u.image)]

/-- serde encode of `models::Login200Response`. -/
def encodeLogin200Response (r : Login200Response) : Json :=
  Json.obj [("user", encodeUser r.user)]

/-! ## HTTP pipeline types -/

/-- `http::Method` (opaque pass-through value). -/
structure Method where
  verb : String
deriving Repr, DecidableEq

/-- `axum::extract::Host` (opaque pass-through value). -/
structure Host where
  host : String
deriving Repr, DecidableEq

/-- `axum_extra::extract::CookieJar` (opaque pass-through value). -/
structure CookieJar where
  cookies : List (String × String)
deriving Repr, DecidableEq

/-- `http::HeaderMap` of the inbound request. -/
abbrev HeaderMap := List (String × String)

/-- An HTTP response body: `Body::empty()`, `Body::from(text)` for validation
error text, or `Body::from(serde_json::to_vec(..))` for a serialized payload
(represented by its JSON value). -/
inductive ResponseBody where
  | empty : ResponseBody
  | text (s : String) : ResponseBody
  | json (j : Json) : ResponseBody
deriving Repr

/-- A built HTTP response: status code, the one header the dispatchers ever
set (`content-type`), and the body. -/
structure HttpResponse where
  status : Nat
  contentType : Option String
  body : ResponseBody
deriving Repr

/-- Instrumentation record observed through call-counting stubs: the keys
passed to `extract_claims_from_header` (in order), and how many times the
validation function and the handler-contract operation ran. -/
structure Trace where
  extractKeys : List String
  validationCalls : Nat
  handlerCalls : Nat
deriving Repr, DecidableEq

/-! ### Handler-contract response enums (`src/apis/*.rs`) -/

/-- `apis::articles::CreateArticleResponse`. -/
inductive CreateArticleResponse where
  | Status201_SingleArticle (body : CreateArticle201Response)
  | Status401_Unauthorized
  | Status422_UnexpectedError (body : GenericErrorModel)
deriving Repr

/-- `apis::articles::DeleteArticleResponse`. -/
inductive DeleteArticleResponse where
  | Status200_NoContent
  | Status401_Unauthorized
  | Status422_UnexpectedError (body : GenericErrorModel)
deriving Repr

/-- `apis::articles::GetArticleResponse`. -/
inductive GetArticleResponse where
  | Status200_SingleArticle (body : CreateArticle201Response)
  | Status422_UnexpectedError (body : GenericErrorModel)
deriving Repr

/-- `apis::articles::GetArticlesResponse`. -/
inductive GetArticlesResponse where
  | Status200_MultipleArticles (body : GetArticlesFeed200Response)
  | Status401_Unauthorized
  | Status422_UnexpectedError (body : GenericErrorModel)
deriving Repr

/-- `apis::articles::GetArticlesFeedResponse`. -/
inductive GetArticlesFeedResponse where
  | Status200_MultipleArticles (body : GetArticlesFeed200Response)
  | Status401_Unauthorized
  | Status422_UnexpectedError (body : GenericErrorModel)
deriving Repr

/-- `apis::articles::UpdateArticleResponse`. -/
inductive UpdateArticleResponse where
  | Status200_SingleArticle (body : CreateArticle201Response)
  | Status401_Unauthorized
  | Status422_UnexpectedError (body : GenericErrorModel)
deriving Repr

/-- `apis::comments::CreateArticleCommentResponse`. -/
inductive CreateArticleCommentResponse where
  | Status200_SingleComment (body : CreateArticleComment200Response)
  | Status401_Unauthorized
  | Status422_UnexpectedError (body : GenericErrorModel)
deriving Repr

/-- `apis::comments::DeleteArticleCommentResponse`. -/
inductive DeleteArticleCommentResponse where
  | Status200_NoContent
  | Status401_Unauthorized
  | Status422_UnexpectedError (body : GenericErrorModel)
deriving Repr

/-- `apis::comments::GetArticleCommentsResponse`. -/
inductive GetArticleCommentsResponse where
  | Status200_MultipleComments (body : GetArticleComments200Response)
  | Status401_Unauthorized
  | Status422_UnexpectedError (body : GenericErrorModel)
deriving Repr

/-- `apis::favorites::CreateArticleFavoriteResponse`. -/
inductive CreateArticleFavoriteResponse where
  | Status200_SingleArticle (body : CreateArticle201Response)
  | Status401_Unauthorized
  | Status422_UnexpectedError (body : GenericErrorModel)
deriving Repr

/-- `apis::favorites::DeleteArticleFavoriteResponse`. -/
inductive DeleteArticleFavoriteResponse where
  | Status200_SingleArticle (body : CreateArticle201Response)
  | Status401_Unauthorized
  | Status422_UnexpectedError (body : GenericErrorModel)
deriving Repr

/-- `apis::profile::FollowUserByUsernameResponse`. -/
inductive FollowUserByUsernameResponse where
  | Status200_Profile (body : GetProfileByUsername200Response)
  | Status401_Unauthorized
  | Status422_UnexpectedError (body : GenericErrorModel)
deriving Repr

/-- `apis::profile::GetProfileByUsernameResponse`. -/
inductive GetProfileByUsernameResponse where
  | Status200_Profile (body : GetProfileByUsername200Response)
  | Status401_Unauthorized
  | Status422_UnexpectedError (body : GenericErrorModel)
deriving Repr

/-- `apis::profile::UnfollowUserByUsernameResponse`. -/
inductive UnfollowUserByUsernameResponse where
  | Status200_Profile (body : GetProfileByUsername200Response)
  | Status401_Unauthorized
  | Status422_UnexpectedError (body : GenericErrorModel)
deriving Repr

/-- Modelled from the spec: `apis::tags::GetTagsResponse` is declared in
`apis/tags.rs`, which is absent from the sources; its two variants are pinned
by the exhaustive match in `server/mod.rs` (`Status200_Tags` serialized as a
JSON payload, `Status422_UnexpectedError`), with `models::GetTags200Response`
as the natural tags payload. -/
inductive GetTagsResponse where
  | Status200_Tags (body : GetTags200Response)
  | Status422_UnexpectedError (body : GenericErrorModel)
deriving Repr

/-- `apis::user_and_authentication::CreateUserResponse`. -/
inductive CreateUserResponse where
  | Status201_User (body : Login200Response)
  | Status422_UnexpectedError (body : GenericErrorModel)
deriving Repr

/-- `apis::user_and_authentication::GetCurrentUserResponse`. -/
inductive GetCurrentUserResponse where
  | Status200_User (body : Login200Response)
  | Status401_Unauthorized
  | Status422_UnexpectedError (body : GenericErrorModel)
deriving Repr

/-- `apis::user_and_authentication::LoginResponse`. -/
inductive LoginResponse where
  | Status200_User (body : Login200Response)
  | Status401_Unauthorized
  | Status422_UnexpectedError (body : GenericErrorModel)
deriving Repr

/-- `apis::user_and_authentication::UpdateCurrentUserResponse`. -/
inductive UpdateCurrentUserResponse where
  | Status200_User (body : Login200Response)
  | Status401_Unauthorized
  | Status422_UnexpectedError (body : GenericErrorModel)
deriving Repr

/-- The external collaborator the dispatcher calls: the
`extract_claims_from_header` operation of `apis::ApiKeyAuthHeader` together
with the handler-contract operations of the six per-resource traits
(`Articles`, `Comments`, `Favorites`, `Profile`, `Tags`,
`UserAndAuthentication`).  `Result<T, ()>` is embedded as `Except Unit T`. -/
structure ApiImpl (Claims : Type) where
  extract_claims_from_header : HeaderMap → String → Option Claims
  create_article : Method → Host → CookieJar → Claims → CreateArticleRequest →
    Except Unit CreateArticleResponse
  delete_article : Method → Host → CookieJar → Claims → DeleteArticlePathParams →
    Except Unit DeleteArticleResponse
  get_article : Method → Host → CookieJar → GetArticlePathParams →
    Except Unit GetArticleResponse
  get_articles : Method → Host → CookieJar → GetArticlesQueryParams →
    Except Unit GetArticlesResponse
  get_articles_feed : Method → Host → CookieJar → Claims → GetArticlesFeedQueryParams →
    Except Unit GetArticlesFeedResponse
  update_article : Method → Host → CookieJar → Claims → UpdateArticlePathParams →
    UpdateArticleRequest → Except Unit UpdateArticleResponse
  create_article_comment : Method → Host → CookieJar → Claims →
    CreateArticleCommentPathParams → CreateArticleCommentRequest →
    Except Unit CreateArticleCommentResponse
  delete_article_comment : Method → Host → CookieJar → Claims →
    DeleteArticleCommentPathParams → Except Unit DeleteArticleCommentResponse
  get_article_comments : Method → Host → CookieJar → GetArticleCommentsPathParams →
    Except Unit GetArticleCommentsResponse
  create_article_favorite : Method → Host → CookieJar → Claims →
    CreateArticleFavoritePathParams → Except Unit CreateArticleFavoriteResponse
  delete_article_favorite : Method → Host → CookieJar → Claims →
    DeleteArticleFavoritePathParams → Except Unit DeleteArticleFavoriteResponse
  follow_user_by_username : Method → Host → CookieJar → Claims →
    FollowUserByUsernamePathParams → Except Unit FollowUserByUsernameResponse
  get_profile_by_username : Method → Host → CookieJar → GetProfileByUsernamePathParams →
    Except Unit GetProfileByUsernameResponse
  unfollow_user_by_username : Method → Host → CookieJar → Claims →
    UnfollowUserByUsernamePathParams → Except Unit UnfollowUserByUsernameResponse
  get_tags : Method → Host → CookieJar → Except Unit GetTagsResponse
  create_user : Method → Host → CookieJar → CreateUserRequest →
    Except Unit CreateUserResponse
  get_current_user : Method → Host → CookieJar → Claims →
    Except Unit GetCurrentUserResponse
  login : Method → Host → CookieJar → LoginRequest → Except Unit LoginResponse
  update_current_user : Method → Host → CookieJar → Claims →
    UpdateCurrentUserRequest → Except Unit UpdateCurrentUserResponse

/-! ## Response mapping

Each dispatcher builds responses in one of three shapes, repeated verbatim in
the source: an empty-body response at a given status, a JSON response
(status + `content-type: application/json` + serialized payload), and the
validation-failure response (`400` with the error collection's `Display`
text). -/

/-- `Response::builder().status(s).body(Body::empty())`. -/
def emptyResponse (status : Nat) : HttpResponse :=
  { status, contentType := none, body := ResponseBody.empty }

/-- `status(s)`, `content-type: application/json`, serialized JSON payload. -/
def jsonResponse (status : Nat) (j : Json) : HttpResponse :=
  { status, contentType := some "application/json", body := ResponseBody.json j }

/-- `400 Bad Request` carrying `validation.unwrap_err().to_string()`. -/
def validationFailure (e : ValidationErrors) : HttpResponse :=
  { status := 400, contentType := none,
    body := ResponseBody.text (displayValidationErrors e) }

/-- Variant-to-response mapping in `create_article`. -/
def mapCreateArticleResponse : CreateArticleResponse → HttpResponse
  | CreateArticleResponse.Status201_SingleArticle body =>
      jsonResponse 201 (encodeCreateArticle201Response body)
  | CreateArticleResponse.Status401_Unauthorized => emptyResponse 401
  | CreateArticleResponse.Status422_UnexpectedError body =>
      jsonResponse 422 (encodeGenericErrorModel body)

/-- Variant-to-response mapping in `delete_article`. -/
def mapDeleteArticleResponse : DeleteArticleResponse → HttpResponse
  | DeleteArticleResponse.Status200_NoContent => emptyResponse 200
  | DeleteArticleResponse.Status401_Unauthorized => emptyResponse 401
  | DeleteArticleResponse.Status422_UnexpectedError body =>
      jsonResponse 422 (encodeGenericErrorModel body)

/-- Variant-to-response mapping in `get_article`. -/
def mapGetArticleResponse : GetArticleResponse → HttpResponse
  | GetArticleResponse.Status200_SingleArticle body =>
      jsonResponse 200 (encodeCreateArticle201Response body)
  | GetArticleResponse.Status422_UnexpectedError body =>
      jsonResponse 422 (encodeGenericErrorModel body)

/-- Variant-to-response mapping in `get_articles`. -/
def mapGetArticlesResponse : GetArticlesResponse → HttpResponse
  | GetArticlesResponse.Status200_MultipleArticles body =>
      jsonResponse 200 (encodeGetArticlesFeed200Response body)
  | GetArticlesResponse.Status401_Unauthorized => emptyResponse 401
  | GetArticlesResponse.Status422_UnexpectedError body =>
      jsonResponse 422 (encodeGenericErrorModel body)

/-- Variant-to-response mapping in `get_articles_feed`. -/
def mapGetArticlesFeedResponse : GetArticlesFeedResponse → HttpResponse
  | GetArticlesFeedResponse.Status200_MultipleArticles body =>
      jsonResponse 200 (encodeGetArticlesFeed200Response body)
  | GetArticlesFeedResponse.Status401_Unauthorized => emptyResponse 401
  | GetArticlesFeedResponse.Status422_UnexpectedError body =>
      jsonResponse 422 (encodeGenericErrorModel body)

/-- Variant-to-response mapping in `update_article`. -/
def mapUpdateArticleResponse : UpdateArticleResponse → HttpResponse
  | UpdateArticleResponse.Status200_SingleArticle body =>
      jsonResponse 200 (encodeCreateArticle201Response body)
  | UpdateArticleResponse.Status401_Unauthorized => emptyResponse 401
  | UpdateArticleResponse.Status422_UnexpectedError body =>
      jsonResponse 422 (encodeGenericErrorModel body)

/-- Variant-to-response mapping in `create_article_comment`. -/
def mapCreateArticleCommentResponse : CreateArticleCommentResponse → HttpResponse
  | CreateArticleCommentResponse.Status200_SingleComment body =>
      jsonResponse 200 (encodeCreateArticleComment200Response body)
  | CreateArticleCommentResponse.Status401_Unauthorized => emptyResponse 401
  | CreateArticleCommentResponse.Status422_UnexpectedError body =>
      jsonResponse 422 (encodeGenericErrorModel body)

/-- Variant-to-response mapping in `delete_article_comment`. -/
def mapDeleteArticleCommentResponse : DeleteArticleCommentResponse → HttpResponse
  | DeleteArticleCommentResponse.Status200_NoContent => emptyResponse 200
  | DeleteArticleCommentResponse.Status401_Unauthorized => emptyResponse 401
  | DeleteArticleCommentResponse.Status422_UnexpectedError body =>
      jsonResponse 422 (encodeGenericErrorModel body)

/-- Variant-to-response mapping in `get_article_comments`. -/
def mapGetArticleCommentsResponse : GetArticleCommentsResponse → HttpResponse
  | GetArticleCommentsResponse.Status200_MultipleComments body =>
      jsonResponse 200 (encodeGetArticleComments200Response body)
  | GetArticleCommentsResponse.Status401_Unauthorized => emptyResponse 401
  | GetArticleCommentsResponse.Status422_UnexpectedError body =>
      jsonResponse 422 (encodeGenericErrorModel body)

/-- Variant-to-response mapping in `create_article_favorite`. -/
def mapCreateArticleFavoriteResponse : CreateArticleFavoriteResponse → HttpResponse
  | CreateArticleFavoriteResponse.Status200_SingleArticle body =>
      jsonResponse 200 (encodeCreateArticle201Response body)
  | CreateArticleFavoriteResponse.Status401_Unauthorized => emptyResponse 401
  | CreateArticleFavoriteResponse.Status422_UnexpectedError body =>
      jsonResponse 422 (encodeGenericErrorModel body)

/-- Variant-to-response mapping in `delete_article_favorite`. -/
def mapDeleteArticleFavoriteResponse : DeleteArticleFavoriteResponse → HttpResponse
  | DeleteArticleFavoriteResponse.Status200_SingleArticle body =>
      jsonResponse 200 (encodeCreateArticle201Response body)
  | DeleteArticleFavoriteResponse.Status401_Unauthorized => emptyResponse 401
  | DeleteArticleFavoriteResponse.Status422_UnexpectedError body =>
      jsonResponse 422 (encodeGenericErrorModel body)

/-- Variant-to-response mapping in `follow_user_by_username`. -/
def mapFollowUserByUsernameResponse : FollowUserByUsernameResponse → HttpResponse
  | FollowUserByUsernameResponse.Status200_Profile body =>
      jsonResponse 200 (encodeGetProfileByUsername200Response body)
  | FollowUserByUsernameResponse.Status401_Unauthorized => emptyResponse 401
  | FollowUserByUsernameResponse.Status422_UnexpectedError body =>
      jsonResponse 422 (encodeGenericErrorModel body)

/-- Variant-to-response mapping in `get_profile_by_username`. -/
def mapGetProfileByUsernameResponse : GetProfileByUsernameResponse → HttpResponse
  | GetProfileByUsernameResponse.Status200_Profile body =>
      jsonResponse 200 (encodeGetProfileByUsername200Response body)
  | GetProfileByUsernameResponse.Status401_Unauthorized => emptyResponse 401
  | GetProfileByUsernameResponse.Status422_UnexpectedError body =>
      jsonResponse 422 (encodeGenericErrorModel body)

/-- Variant-to-response mapping in `unfollow_user_by_username`. -/
def mapUnfollowUserByUsernameResponse : UnfollowUserByUsernameResponse → HttpResponse
  | UnfollowUserByUsernameResponse.Status200_Profile body =>
      jsonResponse 200 (encodeGetProfileByUsername200Response body)
  | UnfollowUserByUsernameResponse.Status401_Unauthorized => emptyResponse 401
  | UnfollowUserByUsernameResponse.Status422_UnexpectedError body =>
      jsonResponse 422 (encodeGenericErrorModel body)

/-- Variant-to-response mapping in `get_tags`. -/
def mapGetTagsResponse : GetTagsResponse → HttpResponse
  | GetTagsResponse.Status200_Tags body =>
      jsonResponse 200 (encodeGetTags200Response body)
  | GetTagsResponse.Status422_UnexpectedError body =>
      jsonResponse 422 (encodeGenericErrorModel body)

/-- Variant-to-response mapping in `create_user`. -/
def mapCreateUserResponse : CreateUserResponse → HttpResponse
  | CreateUserResponse.Status201_User body =>
      jsonResponse 201 (encodeLogin200Response body)
  | CreateUserResponse.Status422_UnexpectedError body =>
      jsonResponse 422 (encodeGenericErrorModel body)

/-- Variant-to-response mapping in `get_current_user`. -/
def mapGetCurrentUserResponse : GetCurrentUserResponse → HttpResponse
  | GetCurrentUserResponse.Status200_User body =>
      jsonResponse 200 (encodeLogin200Response body)
  | GetCurrentUserResponse.Status401_Unauthorized => emptyResponse 401
  | GetCurrentUserResponse.Status422_UnexpectedError body =>
      jsonResponse 422 (encodeGenericErrorModel body)

/-- Variant-to-response mapping in `login`. -/
def mapLoginResponse : LoginResponse → HttpResponse
  | LoginResponse.Status200_User body =>
      jsonResponse 200 (encodeLogin200Response body)
  | LoginResponse.Status401_Unauthorized => emptyResponse 401
  | LoginResponse.Status422_UnexpectedError body =>
      jsonResponse 422 (encodeGenericErrorModel body)

/-- Variant-to-response mapping in `update_current_user`. -/
def mapUpdateCurrentUserResponse : UpdateCurrentUserResponse → HttpResponse
  | UpdateCurrentUserResponse.Status200_User body =>
      jsonResponse 200 (encodeLogin200Response body)
  | UpdateCurrentUserResponse.Status401_Unauthorized => emptyResponse 401
  | UpdateCurrentUserResponse.Status422_UnexpectedError body =>
      jsonResponse 422 (encodeGenericErrorModel body)

/-! ## Route dispatchers (`src/server/mod.rs`)

One function per endpoint, mirroring the source: authentication (when the
route requires it: `extract_claims_from_header(&headers, "Authorization")`,
then `None.or(claims_in_header)`, absent claims → `401` empty), then the
endpoint's validation function (failure → `400` with the error text), then the
handler-contract call, whose `Ok` variants are mapped per variant and whose
`Err(())` is mapped to `500` empty. -/

/-- `create_article` — POST /api/articles (auth required, JSON body). -/
def create_article {C : Type} (api : ApiImpl C) (method : Method) (host : Host)
    (cookies : CookieJar) (headers : HeaderMap) (body : CreateArticleRequest) :
    HttpResponse × Trace :=
  let claims_in_header := api.extract_claims_from_header headers "Authorization"
  match Option.or none claims_in_header with
  | none =>
      (emptyResponse 401,
       { extractKeys := ["Authorization"], validationCalls := 0, handlerCalls := 0 })
  | some claims =>
    match create_article_validation body with
    | Except.error e =>
        (validationFailure e,
         { extractKeys := ["Authorization"], validationCalls := 1, handlerCalls := 0 })
    | Except.ok body =>
      let result := api.create_article method host cookies claims body
      ((match result with
        | Except.ok rsp => mapCreateArticleResponse rsp
        | Except.error _ => emptyResponse 500),
       { extractKeys := ["Authorization"], validationCalls := 1, handlerCalls := 1 })

/-- `delete_article` — DELETE /api/articles/{slug} (auth required). -/
def delete_article {C : Type} (api : ApiImpl C) (method : Method) (host : Host)
    (cookies : CookieJar) (headers : HeaderMap)
    (path_params : DeleteArticlePathParams) : HttpResponse × Trace :=
  let claims_in_header := api.extract_claims_from_header headers "Authorization"
  match Option.or none claims_in_header with
  | none =>
      (emptyResponse 401,
       { extractKeys := ["Authorization"], validationCalls := 0, handlerCalls := 0 })
  | some claims =>
    match delete_article_validation path_params with
    | Except.error e =>
        (validationFailure e,
         { extractKeys := ["Authorization"], validationCalls := 1, handlerCalls := 0 })
    | Except.ok path_params =>
      let result := api.delete_article method host cookies claims path_params
      ((match result with
        | Except.ok rsp => mapDeleteArticleResponse rsp
        | Except.error _ => emptyResponse 500),
       { extractKeys := ["Authorization"], validationCalls := 1, handlerCalls := 1 })

/-- `get_article` — GET /api/articles/{slug} (no auth). -/
def get_article {C : Type} (api : ApiImpl C) (method : Method) (host : Host)
    (cookies : CookieJar) (path_params : GetArticlePathParams) :
    HttpResponse × Trace :=
  match get_article_validation path_params with
  | Except.error e =>
      (validationFailure e,
       { extractKeys := [], validationCalls := 1, handlerCalls := 0 })
  | Except.ok path_params =>
    let result := api.get_article method host cookies path_params
    ((match result with
      | Except.ok rsp => mapGetArticleResponse rsp
      | Except.error _ => emptyResponse 500),
     { extractKeys := [], validationCalls := 1, handlerCalls := 1 })

/-- `get_articles` — GET /api/articles (no auth, query params). -/
def get_articles {C : Type} (api : ApiImpl C) (method : Method) (host : Host)
    (cookies : CookieJar) (query_params : GetArticlesQueryParams) :
    HttpResponse × Trace :=
  match get_articles_validation query_params with
  | Except.error e =>
      (validationFailure e,
       { extractKeys := [], validationCalls := 1, handlerCalls := 0 })
  | Except.ok query_params =>
    let result := api.get_articles method host cookies query_params
    ((match result with
      | Except.ok rsp => mapGetArticlesResponse rsp
      | Except.error _ => emptyResponse 500),
     { extractKeys := [], validationCalls := 1, handlerCalls := 1 })

/-- `get_articles_feed` — GET /api/articles/feed (auth required, query params). -/
def get_articles_feed {C : Type} (api : ApiImpl C) (method : Method) (host : Host)
    (cookies : CookieJar) (headers : HeaderMap)
    (query_params : GetArticlesFeedQueryParams) : HttpResponse × Trace :=
  let claims_in_header := api.extract_claims_from_header headers "Authorization"
  match Option.or none claims_in_header with
  | none =>
      (emptyResponse 401,
       { extractKeys := ["Authorization"], validationCalls := 0, handlerCalls := 0 })
  | some claims =>
    match get_articles_feed_validation query_params with
    | Except.error e =>
        (validationFailure e,
         { extractKeys := ["Authorization"], validationCalls := 1, handlerCalls := 0 })
    | Except.ok query_params =>
      let result := api.get_articles_feed method host cookies claims query_params
      ((match result with
        | Except.ok rsp => mapGetArticlesFeedResponse rsp
        | Except.error _ => emptyResponse 500),
       { extractKeys := ["Authorization"], validationCalls := 1, handlerCalls := 1 })

/-- `update_article` — PUT /api/articles/{slug} (auth required, JSON body). -/
def update_article {C : Type} (api : ApiImpl C) (method : Method) (host : Host)
    (cookies : CookieJar) (headers : HeaderMap)
    (path_params : UpdateArticlePathParams) (body : UpdateArticleRequest) :
    HttpResponse × Trace :=
  let claims_in_header := api.extract_claims_from_header headers "Authorization"
  match Option.or none claims_in_header with
  | none =>
      (emptyResponse 401,
       { extractKeys := ["Authorization"], validationCalls := 0, handlerCalls := 0 })
  | some claims =>
    match update_article_validation path_params body with
    | Except.error e =>
        (validationFailure e,
         { extractKeys := ["Authorization"], validationCalls := 1, handlerCalls := 0 })
    | Except.ok (path_params, body) =>
      let result := api.update_article method host cookies claims path_params body
      ((match result with
        | Except.ok rsp => mapUpdateArticleResponse rsp
        | Except.error _ => emptyResponse 500),
       { extractKeys := ["Authorization"], validationCalls := 1, handlerCalls := 1 })

/-- `create_article_comment` — POST /api/articles/{slug}/comments (auth
required, JSON body). -/
def create_article_comment {C : Type} (api : ApiImpl C) (method : Method)
    (host : Host) (cookies : CookieJar) (headers : HeaderMap)
    (path_params : CreateArticleCommentPathParams)
    (body : CreateArticleCommentRequest) : HttpResponse × Trace :=
  let claims_in_header := api.extract_claims_from_header headers "Authorization"
  match Option.or none claims_in_header with
  | none =>
      (emptyResponse 401,
       { extractKeys := ["Authorization"], validationCalls := 0, handlerCalls := 0 })
  | some claims =>
    match create_article_comment_validation path_params body with
    | Except.error e =>
        (validationFailure e,
         { extractKeys := ["Authorization"], validationCalls := 1, handlerCalls := 0 })
    | Except.ok (path_params, body) =>
      let result := api.create_article_comment method host cookies claims path_params body
      ((match result with
        | Except.ok rsp => mapCreateArticleCommentResponse rsp
        | Except.error _ => emptyResponse 500),
       { extractKeys := ["Authorization"], validationCalls := 1, handlerCalls := 1 })

/-- `delete_article_comment` — DELETE /api/articles/{slug}/comments/{id}
(auth required). -/
def delete_article_comment {C : Type} (api : ApiImpl C) (method : Method)
    (host : Host) (cookies : CookieJar) (headers : HeaderMap)
    (path_params : DeleteArticleCommentPathParams) : HttpResponse × Trace :=
  let claims_in_header := api.extract_claims_from_header headers "Authorization"
  match Option.or none claims_in_header with
  | none =>
      (emptyResponse 401,
       { extractKeys := ["Authorization"], validationCalls := 0, handlerCalls := 0 })
  | some claims =>
    match delete_article_comment_validation path_params with
    | Except.error e =>
        (validationFailure e,
         { extractKeys := ["Authorization"], validationCalls := 1, handlerCalls := 0 })
    | Except.ok path_params =>
      let result := api.delete_article_comment method host cookies claims path_params
      ((match result with
        | Except.ok rsp => mapDeleteArticleCommentResponse rsp
        | Except.error _ => emptyResponse 500),
       { extractKeys := ["Authorization"], validationCalls := 1, handlerCalls := 1 })

/-- `get_article_comments` — GET /api/articles/{slug}/comments (no auth). -/
def get_article_comments {C : Type} (api : ApiImpl C) (method : Method)
    (host : Host) (cookies : CookieJar)
    (path_params : GetArticleCommentsPathParams) : HttpResponse × Trace :=
  match get_article_comments_validation path_params with
  | Except.error e =>
      (validationFailure e,
       { extractKeys := [], validationCalls := 1, handlerCalls := 0 })
  | Except.ok path_params =>
    let result := api.get_article_comments method host cookies path_params
    ((match result with
      | Except.ok rsp => mapGetArticleCommentsResponse rsp
      | Except.error _ => emptyResponse 500),
     { extractKeys := [], validationCalls := 1, handlerCalls := 1 })

/-- `create_article_favorite` — POST /api/articles/{slug}/favorite (auth
required). -/
def create_article_favorite {C : Type} (api : ApiImpl C) (method : Method)
    (host : Host) (cookies : CookieJar) (headers : HeaderMap)
    (path_params : CreateArticleFavoritePathParams) : HttpResponse × Trace :=
  let claims_in_header := api.extract_claims_from_header headers "Authorization"
  match Option.or none claims_in_header with
  | none =>
      (emptyResponse 401,
       { extractKeys := ["Authorization"], validationCalls := 0, handlerCalls := 0 })
  | some claims =>
    match create_article_favorite_validation path_params with
    | Except.error e =>
        (validationFailure e,
         { extractKeys := ["Authorization"], validationCalls := 1, handlerCalls := 0 })
    | Except.ok path_params =>
      let result := api.create_article_favorite method host cookies claims path_params
      ((match result with
        | Except.ok rsp => mapCreateArticleFavoriteResponse rsp
        | Except.error _ => emptyResponse 500),
       { extractKeys := ["Authorization"], validationCalls := 1, handlerCalls := 1 })

/-- `delete_article_favorite` — DELETE /api/articles/{slug}/favorite (auth
required). -/
def delete_article_favorite {C : Type} (api : ApiImpl C) (method : Method)
    (host : Host) (cookies : CookieJar) (headers : HeaderMap)
    (path_params : DeleteArticleFavoritePathParams) : HttpResponse × Trace :=
  let claims_in_header := api.extract_claims_from_header headers "Authorization"
  match Option.or none claims_in_header with
  | none =>
      (emptyResponse 401,
       { extractKeys := ["Authorization"], validationCalls := 0, handlerCalls := 0 })
  | some claims =>
    match delete_article_favorite_validation path_params with
    | Except.error e =>
        (validationFailure e,
         { extractKeys := ["Authorization"], validationCalls := 1, handlerCalls := 0 })
    | Except.ok path_params =>
      let result := api.delete_article_favorite method host cookies claims path_params
      ((match result with
        | Except.ok rsp => mapDeleteArticleFavoriteResponse rsp
        | Except.error _ => emptyResponse 500),
       { extractKeys := ["Authorization"], validationCalls := 1, handlerCalls := 1 })

/-- `follow_user_by_username` — POST /api/profiles/{username}/follow (auth
required). -/
def follow_user_by_username {C : Type} (api : ApiImpl C) (method : Method)
    (host : Host) (cookies : CookieJar) (headers : HeaderMap)
    (path_params : FollowUserByUsernamePathParams) : HttpResponse × Trace :=
  let claims_in_header := api.extract_claims_from_header headers "Authorization"
  match Option.or none claims_in_header with
  | none =>
      (emptyResponse 401,
       { extractKeys := ["Authorization"], validationCalls := 0, handlerCalls := 0 })
  | some claims =>
    match follow_user_by_username_validation path_params with
    | Except.error e =>
        (validationFailure e,
         { extractKeys := ["Authorization"], validationCalls := 1, handlerCalls := 0 })
    | Except.ok path_params =>
      let result := api.follow_user_by_username method host cookies claims path_params
      ((match result with
        | Except.ok rsp => mapFollowUserByUsernameResponse rsp
        | Except.error _ => emptyResponse 500),
       { extractKeys := ["Authorization"], validationCalls := 1, handlerCalls := 1 })

/-- `get_profile_by_username` — GET /api/profiles/{username} (no auth). -/
def get_profile_by_username {C : Type} (api : ApiImpl C) (method : Method)
    (host : Host) (cookies : CookieJar)
    (path_params : GetProfileByUsernamePathParams) : HttpResponse × Trace :=
  match get_profile_by_username_validation path_params with
  | Except.error e =>
      (validationFailure e,
       { extractKeys := [], validationCalls := 1, handlerCalls := 0 })
  | Except.ok path_params =>
    let result := api.get_profile_by_username method host cookies path_params
    ((match result with
      | Except.ok rsp => mapGetProfileByUsernameResponse rsp
      | Except.error _ => emptyResponse 500),
     { extractKeys := [], validationCalls := 1, handlerCalls := 1 })

/-- `unfollow_user_by_username` — DELETE /api/profiles/{username}/follow
(auth required). -/
def unfollow_user_by_username {C : Type} (api : ApiImpl C) (method : Method)
    (host : Host) (cookies : CookieJar) (headers : HeaderMap)
    (path_params : UnfollowUserByUsernamePathParams) : HttpResponse × Trace :=
  let claims_in_header := api.extract_claims_from_header headers "Authorization"
  match Option.or none claims_in_header with
  | none =>
      (emptyResponse 401,
       { extractKeys := ["Authorization"], validationCalls := 0, handlerCalls := 0 })
  | some claims =>
    match unfollow_user_by_username_validation path_params with
    | Except.error e =>
        (validationFailure e,
         { extractKeys := ["Authorization"], validationCalls := 1, handlerCalls := 0 })
    | Except.ok path_params =>
      let result := api.unfollow_user_by_username method host cookies claims path_params
      ((match result with
        | Except.ok rsp => mapUnfollowUserByUsernameResponse rsp
        | Except.error _ => emptyResponse 500),
       { extractKeys := ["Authorization"], validationCalls := 1, handlerCalls := 1 })

/-- `get_tags` — GET /api/tags (no auth, no parameters). -/
def get_tags {C : Type} (api : ApiImpl C) (method : Method) (host : Host)
    (cookies : CookieJar) : HttpResponse × Trace :=
  match get_tags_validation with
  | Except.error e =>
      (validationFailure e,
       { extractKeys := [], validationCalls := 1, handlerCalls := 0 })
  | Except.ok () =>
    let result := api.get_tags method host cookies
    ((match result with
      | Except.ok rsp => mapGetTagsResponse rsp
      | Except.error _ => emptyResponse 500),
     { extractKeys := [], validationCalls := 1, handlerCalls := 1 })

/-- `create_user` — POST /api/users (no auth, JSON body). -/
def create_user {C : Type} (api : ApiImpl C) (method : Method) (host : Host)
    (cookies : CookieJar) (body : CreateUserRequest) : HttpResponse × Trace :=
  match create_user_validation body with
  | Except.error e =>
      (validationFailure e,
       { extractKeys := [], validationCalls := 1, handlerCalls := 0 })
  | Except.ok body =>
    let result := api.create_user method host cookies body
    ((match result with
      | Except.ok rsp => mapCreateUserResponse rsp
      | Except.error _ => emptyResponse 500),
     { extractKeys := [], validationCalls := 1, handlerCalls := 1 })

/-- `get_current_user` — GET /api/user (auth required, no parameters). -/
def get_current_user {C : Type} (api : ApiImpl C) (method : Method) (host : Host)
    (cookies : CookieJar) (headers : HeaderMap) : HttpResponse × Trace :=
  let claims_in_header := api.extract_claims_from_header headers "Authorization"
  match Option.or none claims_in_header with
  | none =>
      (emptyResponse 401,
       { extractKeys := ["Authorization"], validationCalls := 0, handlerCalls := 0 })
  | some claims =>
    match get_current_user_validation with
    | Except.error e =>
        (validationFailure e,
         { extractKeys := ["Authorization"], validationCalls := 1, handlerCalls := 0 })
    | Except.ok () =>
      let result := api.get_current_user method host cookies claims
      ((match result with
        | Except.ok rsp => mapGetCurrentUserResponse rsp
        | Except.error _ => emptyResponse 500),
       { extractKeys := ["Authorization"], validationCalls := 1, handlerCalls := 1 })

/-- `login` — POST /api/users/login (no auth, JSON body). -/
def login {C : Type} (api : ApiImpl C) (method : Method) (host : Host)
    (cookies : CookieJar) (body : LoginRequest) : HttpResponse × Trace :=
  match login_validation body with
  | Except.error e =>
      (validationFailure e,
       { extractKeys := [], validationCalls := 1, handlerCalls := 0 })
  | Except.ok body =>
    let result := api.login method host cookies body
    ((match result with
      | Except.ok rsp => mapLoginResponse rsp
      | Except.error _ => emptyResponse 500),
     { extractKeys := [], validationCalls := 1, handlerCalls := 1 })

/-- `update_current_user` — PUT /api/user (auth required, JSON body). -/
def update_current_user {C : Type} (api : ApiImpl C) (method : Method)
    (host : Host) (cookies : CookieJar) (headers : HeaderMap)
    (body : UpdateCurrentUserRequest) : HttpResponse × Trace :=
  let claims_in_header := api.extract_claims_from_header headers "Authorization"
  match Option.or none claims_in_header with
  | none =>
      (emptyResponse 401,
       { extractKeys := ["Authorization"], validationCalls := 0, handlerCalls := 0 })
  | some claims =>
    match update_current_user_validation body with
    | Except.error e =>
        (validationFailure e,
         { extractKeys := ["Authorization"], validationCalls := 1, handlerCalls := 0 })
    | Except.ok body =>
      let result := api.update_current_user method host cookies claims body
      ((match result with
        | Except.ok rsp => mapUpdateCurrentUserResponse rsp
        | Except.error _ => emptyResponse 500),
       { extractKeys := ["Authorization"], validationCalls := 1, handlerCalls := 1 })

/-! ## Transport layer

Modelled from the spec: the surrounding extraction step (axum's `Json`, `Path`
and `Query` extractors, which are library code outside the sources).  Each
`serve_*` function receives the full request (headers included).  A JSON body
is decoded before the dispatch function runs; decode failure is a client
error, reported immediately as `400 Bad Request` with the decode error text as
the body — no partial object is passed downstream and no collaborator is
invoked.  A dispatch function that does not declare a `HeaderMap` parameter is
simply never handed the request's headers. -/

/-- Trace of a request rejected by the transport layer before dispatch. -/
def rejectedTrace : Trace :=
  { extractKeys := [], validationCalls := 0, handlerCalls := 0 }

/-- Body-decode failure: `400 Bad Request` with the decode error text. -/
def decodeFailure (e : String) : HttpResponse :=
  { status := 400, contentType := none, body := ResponseBody.text e }

/-- Serve POST /api/articles: decode the body, then dispatch `create_article`. -/
def serve_create_article {C : Type} (api : ApiImpl C) (method : Method)
    (host : Host) (cookies : CookieJar) (headers : HeaderMap) (rawBody : Json) :
    HttpResponse × Trace :=
  match decodeCreateArticleRequest rawBody with
  | Except.error e => (decodeFailure e, rejectedTrace)
  | Except.ok body => create_article api method host cookies headers body

/-- Serve PUT /api/articles/{slug}: decode the body, then dispatch
`update_article`. -/
def serve_update_article {C : Type} (api : ApiImpl C) (method : Method)
    (host : Host) (cookies : CookieJar) (headers : HeaderMap)
    (path_params : UpdateArticlePathParams) (rawBody : Json) :
    HttpResponse × Trace :=
  match decodeUpdateArticleRequest rawBody with
  | Except.error e => (decodeFailure e, rejectedTrace)
  | Except.ok body => update_article api method host cookies headers path_params body

/-- Serve POST /api/articles/{slug}/comments: decode the body, then dispatch
`create_article_comment`. -/
def serve_create_article_comment {C : Type} (api : ApiImpl C) (method : Method)
    (host : Host) (cookies : CookieJar) (headers : HeaderMap)
    (path_params : CreateArticleCommentPathParams) (rawBody : Json) :
    HttpResponse × Trace :=
  match decodeCreateArticleCommentRequest rawBody with
  | Except.error e => (decodeFailure e, rejectedTrace)
  | Except.ok body =>
      create_article_comment api method host cookies headers path_params body

/-- Serve POST /api/users: decode the body, then dispatch `create_user`
(which declares no `HeaderMap` parameter). -/
def serve_create_user {C : Type} (api : ApiImpl C) (method : Method)
    (host : Host) (cookies : CookieJar) (_headers : HeaderMap) (rawBody : Json) :
    HttpResponse × Trace :=
  match decodeCreateUserRequest rawBody with
  | Except.error e => (decodeFailure e, rejectedTrace)
  | Except.ok body => create_user api method host cookies body

/-- Serve POST /api/users/login: decode the body, then dispatch `login`
(which declares no `HeaderMap` parameter). -/
def serve_login {C : Type} (api : ApiImpl C) (method : Method) (host : Host)
    (cookies : CookieJar) (_headers : HeaderMap) (rawBody : Json) :
    HttpResponse × Trace :=
  match decodeLoginRequest rawBody with
  | Except.error e => (decodeFailure e, rejectedTrace)
  | Except.ok body => login api method host cookies body

/-- Serve PUT /api/user: decode the body, then dispatch
`update_current_user`. -/
def serve_update_current_user {C : Type} (api : ApiImpl C) (method : Method)
    (host : Host) (cookies : CookieJar) (headers : HeaderMap) (rawBody : Json) :
    HttpResponse × Trace :=
  match decodeUpdateCurrentUserRequest rawBody with
  | Except.error e => (decodeFailure e, rejectedTrace)
  | Except.ok body => update_current_user api method host cookies headers body

/-- Serve GET /api/articles/{slug}: `get_article` declares no `HeaderMap`
parameter, so the request's headers are dropped by extraction. -/
def serve_get_article {C : Type} (api : ApiImpl C) (method : Method)
    (host : Host) (cookies : CookieJar) (_headers : HeaderMap)
    (path_params : GetArticlePathParams) : HttpResponse × Trace :=
  get_article api method host cookies path_params

/-- Serve GET /api/articles: `get_articles` declares no `HeaderMap`
parameter. -/
def serve_get_articles {C : Type} (api : ApiImpl C) (method : Method)
    (host : Host) (cookies : CookieJar) (_headers : HeaderMap)
    (query_params : GetArticlesQueryParams) : HttpResponse × Trace :=
  get_articles api method host cookies query_params

/-- Serve GET /api/articles/{slug}/comments: `get_article_comments` declares
no `HeaderMap` parameter. -/
def serve_get_article_comments {C : Type} (api : ApiImpl C) (method : Method)
    (host : Host) (cookies : CookieJar) (_headers : HeaderMap)
    (path_params : GetArticleCommentsPathParams) : HttpResponse × Trace :=
  get_article_comments api method host cookies path_params

/-- Serve GET /api/profiles/{username}: `get_profile_by_username` declares no
`HeaderMap` parameter. -/
def serve_get_profile_by_username {C : Type} (api : ApiImpl C) (method : Method)
    (host : Host) (cookies : CookieJar) (_headers : HeaderMap)
    (path_params : GetProfileByUsernamePathParams) : HttpResponse × Trace :=
  get_profile_by_username api method host cookies path_params

/-- Serve GET /api/tags: `get_tags` declares no `HeaderMap` parameter. -/
def serve_get_tags {C : Type} (api : ApiImpl C) (method : Method) (host : Host)
    (cookies : CookieJar) (_headers : HeaderMap) : HttpResponse × Trace :=
  get_tags api method host cookies

/-! ## Stub handler implementations (for concrete witnesses) -/

/-- A call-observation stub: claims always resolve (to `()`), and every
handler operation returns the internal-failure signal `Err(())`. -/
def errStubApi : ApiImpl Unit :=
  { extract_claims_from_header := fun _ _ => some ()
    create_article := fun _ _ _ _ _ => Except.error ()
    delete_article := fun _ _ _ _ _ => Except.error ()
    get_article := fun _ _ _ _ => Except.error ()
    get_articles := fun _ _ _ _ => Except.error ()
    get_articles_feed := fun _ _ _ _ _ => Except.error ()
    update_article := fun _ _ _ _ _ _ => Except.error ()
    create_article_comment := fun _ _ _ _ _ _ => Except.error ()
    delete_article_comment := fun _ _ _ _ _ => Except.error ()
    get_article_comments := fun _ _ _ _ => Except.error ()
    create_article_favorite := fun _ _ _ _ _ => Except.error ()
    delete_article_favorite := fun _ _ _ _ _ => Except.error ()
    follow_user_by_username := fun _ _ _ _ _ => Except.error ()
    get_profile_by_username := fun _ _ _ _ => Except.error ()
    unfollow_user_by_username := fun _ _ _ _ _ => Except.error ()
    get_tags := fun _ _ _ => Except.error ()
    create_user := fun _ _ _ _ => Except.error ()
    get_current_user := fun _ _ _ _ => Except.error ()
    login := fun _ _ _ _ => Except.error ()
    update_current_user := fun _ _ _ _ _ => Except.error () }

/-- A stub on which claims never resolve. -/
def noClaimsApi : ApiImpl Unit :=
  { errStubApi with extract_claims_from_header := fun _ _ => none }

/-- Modelled from the spec: a stub handler for POST /api/articles that echoes
the submitted `NewArticle` back as the created `Article`, `tagList` defaulting
to an empty list when absent. -/
def echoCreateArticleApi (slug created_at updated_at : String)
    (author : Profile) : ApiImpl Unit :=
  { errStubApi with
    create_article := fun _ _ _ _ req =>
      Except.ok (CreateArticleResponse.Status201_SingleArticle
        { article :=
          { slug, title := req.article.title,
            description := req.article.description, body := req.article.body,
            tag_list := req.article.tag_list.getD [],
            created_at, updated_at, favorited := false, favorites_count := 0,
            author } }) }

/-- Modelled from the spec: a stub handler for POST /api/users that returns
the `Status201_User` outcome carrying a fixed `Login200Response`. -/
def createUserStubApi (payload : Login200Response) : ApiImpl Unit :=
  { errStubApi with
    create_user := fun _ _ _ _ =>
      Except.ok (CreateUserResponse.Status201_User payload) }

/-- Concrete transport values used by witnesses. -/
def m0 : Method := { verb := "POST" }

def h0 : Host := { host := "localhost" }

def c0 : CookieJar := { cookies := [] }

/-! ## Observation helpers used by the theorem statements -/

/-- Whether an `Except` value is a success. -/
def exceptOk {ε α : Type} : Except ε α → Bool
  | Except.ok _ => true
  | Except.error _ => false

/-- Whether an error collection has an entry naming the given field. -/
def namesField (errs : ValidationErrors) (field : String) : Bool :=
  errs.any (fun e => e.1 == field)

/-- The declared `range(min = 0)` constraint on an `offset` value is
violated. -/
def offsetViolated : Option Int → Bool
  | none => false
  | some x => decide (x < 0)

/-- The declared `range(min = 1)` constraint on a `limit` value is
violated. -/
def limitViolated : Option Int → Bool
  | none => false
  | some x => decide (x < 1)

/-! ## Claims -/

/-- C1: for every auth-required endpoint, when `extract_claims_from_header`
returns `none` for the request's headers, the dispatcher responds `401` with
an empty body, and neither the validation function nor the handler-contract
operation runs (validation and handler call counts are zero). -/
theorem auth_required_absent_claims_yields_401_before_validation
    {C : Type} (api : ApiImpl C) (m : Method) (h : Host) (c : CookieJar)
    (hd : HeaderMap)
    (hnone : api.extract_claims_from_header hd "Authorization" = none) :
    (∀ b, create_article api m h c hd b =
       (emptyResponse 401, ⟨["Authorization"], 0, 0⟩)) ∧
    (∀ p, delete_article api m h c hd p =
       (emptyResponse 401, ⟨["Authorization"], 0, 0⟩)) ∧
    (∀ q, get_articles_feed api m h c hd q =
       (emptyResponse 401, ⟨["Authorization"], 0, 0⟩)) ∧
    (∀ p b, update_article api m h c hd p b =
       (emptyResponse 401, ⟨["Authorization"], 0, 0⟩)) ∧
    (∀ p b, create_article_comment api m h c hd p b =
       (emptyResponse 401, ⟨["Authorization"], 0, 0⟩)) ∧
    (∀ p, delete_article_comment api m h c hd p =
       (emptyResponse 401, ⟨["Authorization"], 0, 0⟩)) ∧
    (∀ p, create_article_favorite api m h c hd p =
       (emptyResponse 401, ⟨["Authorization"], 0, 0⟩)) ∧
    (∀ p, delete_article_favorite api m h c hd p =
       (emptyResponse 401, ⟨["Authorization"], 0, 0⟩)) ∧
    (∀ p, follow_user_by_username api m h c hd p =
       (emptyResponse 401, ⟨["Authorization"], 0, 0⟩)) ∧
    (∀ p, unfollow_user_by_username api m h c hd p =
       (emptyResponse 401, ⟨["Authorization"], 0, 0⟩)) ∧
    (get_current_user api m h c hd =
       (emptyResponse 401, ⟨["Authorization"], 0, 0⟩)) ∧
    (∀ b, update_current_user api m h c hd b =
       (emptyResponse 401, ⟨["Authorization"], 0, 0⟩)) := by
  refine ⟨?_, ?_, ?_, ?_, ?_, ?_, ?_, ?_, ?_, ?_, ?_, ?_⟩ <;>
    intros <;>
    simp [create_article, delete_article, get_articles_feed, update_article,
      create_article_comment, delete_article_comment, create_article_favorite,
      delete_article_favorite, follow_user_by_username,
      unfollow_user_by_username, get_current_user, update_current_user,
      hnone, Option.or]

/-- Witness for C1: on a stub whose claims never resolve, every auth-required
endpoint answers `401` with empty body and zero validation/handler calls. -/
theorem auth_required_absent_claims_yields_401_before_validation_witness :
    create_article noClaimsApi m0 h0 c0 [] ⟨⟨"t", "d", "b", none⟩⟩ =
      (emptyResponse 401, ⟨["Authorization"], 0, 0⟩) ∧
    delete_article noClaimsApi m0 h0 c0 [] ⟨"s"⟩ =
      (emptyResponse 401, ⟨["Authorization"], 0, 0⟩) ∧
    get_articles_feed noClaimsApi m0 h0 c0 [] ⟨none, none⟩ =
      (emptyResponse 401, ⟨["Authorization"], 0, 0⟩) ∧
    update_article noClaimsApi m0 h0 c0 [] ⟨"s"⟩ ⟨⟨none, none, none⟩⟩ =
      (emptyResponse 401, ⟨["Authorization"], 0, 0⟩) ∧
    create_article_comment noClaimsApi m0 h0 c0 [] ⟨"s"⟩ ⟨⟨"hi"⟩⟩ =
      (emptyResponse 401, ⟨["Authorization"], 0, 0⟩) ∧
    delete_article_comment noClaimsApi m0 h0 c0 [] ⟨"s", 1⟩ =
      (emptyResponse 401, ⟨["Authorization"], 0, 0⟩) ∧
    create_article_favorite noClaimsApi m0 h0 c0 [] ⟨"s"⟩ =
      (emptyResponse 401, ⟨["Authorization"], 0, 0⟩) ∧
    delete_article_favorite noClaimsApi m0 h0 c0 [] ⟨"s"⟩ =
      (emptyResponse 401, ⟨["Authorization"], 0, 0⟩) ∧
    follow_user_by_username noClaimsApi m0 h0 c0 [] ⟨"u"⟩ =
      (emptyResponse 401, ⟨["Authorization"], 0, 0⟩) ∧
    unfollow_user_by_username noClaimsApi m0 h0 c0 [] ⟨"u"⟩ =
      (emptyResponse 401, ⟨["Authorization"], 0, 0⟩) ∧
    get_current_user noClaimsApi m0 h0 c0 [] =
      (emptyResponse 401, ⟨["Authorization"], 0, 0⟩) ∧
    update_current_user noClaimsApi m0 h0 c0 []
        ⟨⟨none, none, none, none, none⟩⟩ =
      (emptyResponse 401, ⟨["Authorization"], 0, 0⟩) := by
  have h := auth_required_absent_claims_yields_401_before_validation
    noClaimsApi m0 h0 c0 [] rfl
  exact ⟨h.1 _, h.2.1 _, h.2.2.1 _, h.2.2.2.1 _ _, h.2.2.2.2.1 _ _,
    h.2.2.2.2.2.1 _, h.2.2.2.2.2.2.1 _, h.2.2.2.2.2.2.2.1 _,
    h.2.2.2.2.2.2.2.2.1 _, h.2.2.2.2.2.2.2.2.2.1 _,
    h.2.2.2.2.2.2.2.2.2.2.1, h.2.2.2.2.2.2.2.2.2.2.2 _⟩

/-- C2: for every endpoint and every request, the handler-contract operation
runs exactly once when claims resolution (where required) and validation both
succeed, and zero times otherwise — in particular it is never invoked twice,
since the count is always `0` or `1`. -/
theorem handler_contract_invoked_at_most_once
    {C : Type} (api : ApiImpl C) (m : Method) (h : Host) (c : CookieJar) :
    (∀ hd b, (create_article api m h c hd b).2.handlerCalls =
       if (api.extract_claims_from_header hd "Authorization").isSome
          && exceptOk (create_article_validation b) then 1 else 0) ∧
    (∀ hd p, (delete_article api m h c hd p).2.handlerCalls =
       if (api.extract_claims_from_header hd "Authorization").isSome
          && exceptOk (delete_article_validation p) then 1 else 0) ∧
    (∀ p, (get_article api m h c p).2.handlerCalls =
       if exceptOk (get_article_validation p) then 1 else 0) ∧
    (∀ q, (get_articles api m h c q).2.handlerCalls =
       if exceptOk (get_articles_validation q) then 1 else 0) ∧
    (∀ hd q, (get_articles_feed api m h c hd q).2.handlerCalls =
       if (api.extract_claims_from_header hd "Authorization").isSome
          && exceptOk (get_articles_feed_validation q) then 1 else 0) ∧
    (∀ hd p b, (update_article api m h c hd p b).2.handlerCalls =
       if (api.extract_claims_from_header hd "Authorization").isSome
          && exceptOk (update_article_validation p b) then 1 else 0) ∧
    (∀ hd p b, (create_article_comment api m h c hd p b).2.handlerCalls =
       if (api.extract_claims_from_header hd "Authorization").isSome
          && exceptOk (create_article_comment_validation p b) then 1 else 0) ∧
    (∀ hd p, (delete_article_comment api m h c hd p).2.handlerCalls =
       if (api.extract_claims_from_header hd "Authorization").isSome
          && exceptOk (delete_article_comment_validation p) then 1 else 0) ∧
    (∀ p, (get_article_comments api m h c p).2.handlerCalls =
       if exceptOk (get_article_comments_validation p) then 1 else 0) ∧
    (∀ hd p, (create_article_favorite api m h c hd p).2.handlerCalls =
       if (api.extract_claims_from_header hd "Authorization").isSome
          && exceptOk (create_article_favorite_validation p) then 1 else 0) ∧
    (∀ hd p, (delete_article_favorite api m h c hd p).2.handlerCalls =
       if (api.extract_claims_from_header hd "Authorization").isSome
          && exceptOk (delete_article_favorite_validation p) then 1 else 0) ∧
    (∀ hd p, (follow_user_by_username api m h c hd p).2.handlerCalls =
       if (api.extract_claims_from_header hd "Authorization").isSome
          && exceptOk (follow_user_by_username_validation p) then 1 else 0) ∧
    (∀ p, (get_profile_by_username api m h c p).2.handlerCalls =
       if exceptOk (get_profile_by_username_validation p) then 1 else 0) ∧
    (∀ hd p, (unfollow_user_by_username api m h c hd p).2.handlerCalls =
       if (api.extract_claims_from_header hd "Authorization").isSome
          && exceptOk (unfollow_user_by_username_validation p) then 1 else 0) ∧
    ((get_tags api m h c).2.handlerCalls =
       if exceptOk get_tags_validation then 1 else 0) ∧
    (∀ b, (create_user api m h c b).2.handlerCalls =
       if exceptOk (create_user_validation b) then 1 else 0) ∧
    (∀ hd, (get_current_user api m h c hd).2.handlerCalls =
       if (api.extract_claims_from_header hd "Authorization").isSome
          && exceptOk get_current_user_validation then 1 else 0) ∧
    (∀ b, (login api m h c b).2.handlerCalls =
       if exceptOk (login_validation b) then 1 else 0) ∧
    (∀ hd b, (update_current_user api m h c hd b).2.handlerCalls =
       if (api.extract_claims_from_header hd "Authorization").isSome
          && exceptOk (update_current_user_validation b) then 1 else 0) := by
  refine ⟨?_, ?_, ?_, ?_, ?_, ?_, ?_, ?_, ?_, ?_, ?_, ?_, ?_, ?_, ?_, ?_,
    ?_, ?_, ?_⟩ <;> intros
  case _ hd b =>
    cases hx : api.extract_claims_from_header hd "Authorization" with
    | none => simp [create_article, hx, Option.or]
    | some claims =>
        cases hv : create_article_validation b <;>
          simp [create_article, hx, hv, Option.or, exceptOk]
  case _ hd p =>
    cases hx : api.extract_claims_from_header hd "Authorization" with
    | none => simp [delete_article, hx, Option.or]
    | some claims =>
        cases hv : delete_article_validation p <;>
          simp [delete_article, hx, hv, Option.or, exceptOk]
  case _ p =>
    cases hv : get_article_validation p <;>
      simp [get_article, hv, exceptOk]
  case _ q =>
    cases hv : get_articles_validation q <;>
      simp [get_articles, hv, exceptOk]
  case _ hd q =>
    cases hx : api.extract_claims_from_header hd "Authorization" with
    | none => simp [get_articles_feed, hx, Option.or]
    | some claims =>
        cases hv : get_articles_feed_validation q <;>
          simp [get_articles_feed, hx, hv, Option.or, exceptOk]
  case _ hd p b =>
    cases hx : api.extract_claims_from_header hd "Authorization" with
    | none => simp [update_article, hx, Option.or]
    | some claims =>
        cases hv : update_article_validation p b with
        | error e => simp [update_article, hx, hv, Option.or, exceptOk]
        | ok v =>
            obtain ⟨p2, b2⟩ := v
            simp [update_article, hx, hv, Option.or, exceptOk]
  case _ hd p b =>
    cases hx : api.extract_claims_from_header hd "Authorization" with
    | none => simp [create_article_comment, hx, Option.or]
    | some claims =>
        cases hv : create_article_comment_validation p b with
        | error e => simp [create_article_comment, hx, hv, Option.or, exceptOk]
        | ok v =>
            obtain ⟨p2, b2⟩ := v
            simp [create_article_comment, hx, hv, Option.or, exceptOk]
  case _ hd p =>
    cases hx : api.extract_claims_from_header hd "Authorization" with
    | none => simp [delete_article_comment, hx, Option.or]
    | some claims =>
        cases hv : delete_article_comment_validation p <;>
          simp [delete_article_comment, hx, hv, Option.or, exceptOk]
  case _ p =>
    cases hv : get_article_comments_validation p <;>
      simp [get_article_comments, hv, exceptOk]
  case _ hd p =>
    cases hx : api.extract_claims_from_header hd "Authorization" with
    | none => simp [create_article_favorite, hx, Option.or]
    | some claims =>
        cases hv : create_article_favorite_validation p <;>
          simp [create_article_favorite, hx, hv, Option.or, exceptOk]
  case _ hd p =>
    cases hx : api.extract_claims_from_header hd "Authorization" with
    | none => simp [delete_article_favorite, hx, Option.or]
    | some claims =>
        cases hv : delete_article_favorite_validation p <;>
          simp [delete_article_favorite, hx, hv, Option.or, exceptOk]
  case _ hd p =>
    cases hx : api.extract_claims_from_header hd "Authorization" with
    | none => simp [follow_user_by_username, hx, Option.or]
    | some claims =>
        cases hv : follow_user_by_username_validation p <;>
          simp [follow_user_by_username, hx, hv, Option.or, exceptOk]
  case _ p =>
    cases hv : get_profile_by_username_validation p <;>
      simp [get_profile_by_username, hv, exceptOk]
  case _ hd p =>
    cases hx : api.extract_claims_from_header hd "Authorization" with
    | none => simp [unfollow_user_by_username, hx, Option.or]
    | some claims =>
        cases hv : unfollow_user_by_username_validation p <;>
          simp [unfollow_user_by_username, hx, hv, Option.or, exceptOk]
  case _ =>
    simp [get_tags, get_tags_validation, exceptOk]
  case _ b =>
    cases hv : create_user_validation b <;>
      simp [create_user, hv, exceptOk]
  case _ hd =>
    cases hx : api.extract_claims_from_header hd "Authorization" with
    | none => simp [get_current_user, hx, Option.or]
    | some claims =>
        simp [get_current_user, hx, Option.or, get_current_user_validation,
          exceptOk]
  case _ b =>
    cases hv : login_validation b <;>
      simp [login, hv, exceptOk]
  case _ hd b =>
    cases hx : api.extract_claims_from_header hd "Authorization" with
    | none => simp [update_current_user, hx, Option.or]
    | some claims =>
        cases hv : update_current_user_validation b <;>
          simp [update_current_user, hx, hv, Option.or, exceptOk]

/-- The two-field range validation of the query-parameter structs accumulates:
the combined error list is empty exactly when no constraint is violated, and
it names each of `offset` and `limit` exactly when that field's constraint is
violated — independently of the other field. -/
theorem queryRangeAccumulation (off lim : Option Int) :
    ((rangeMinErrors "offset" 0 off ++ rangeMinErrors "limit" 1 lim).isEmpty
       = (!offsetViolated off && !limitViolated lim))
    ∧ (namesField (rangeMinErrors "offset" 0 off ++ rangeMinErrors "limit" 1 lim)
         "offset" = offsetViolated off)
    ∧ (namesField (rangeMinErrors "offset" 0 off ++ rangeMinErrors "limit" 1 lim)
         "limit" = limitViolated lim) := by
  cases off with
  | none =>
    cases lim with
    | none => decide
    | some y =>
        by_cases hy : y < 1 <;>
          simp [rangeMinErrors, offsetViolated, limitViolated, namesField, hy]
  | some x =>
    cases lim with
    | none =>
        by_cases hx : x < 0 <;>
          simp [rangeMinErrors, offsetViolated, limitViolated, namesField, hx]
    | some y =>
        by_cases hx : x < 0 <;> by_cases hy : y < 1 <;>
          simp [rangeMinErrors, offsetViolated, limitViolated, namesField, hx, hy]

/-- C3: every endpoint's validation function evaluates all declared
constraints and reports every violated one.  For the two constrained
parameter sets (`GetArticlesQueryParams`, `GetArticlesFeedQueryParams`) the
returned error collection names `offset` exactly when its `range(min = 0)`
constraint is violated and names `limit` exactly when its `range(min = 1)`
constraint is violated — each independently of whether the other failed; the
remaining endpoints declare no constraints and their validation functions
always succeed (an empty, hence complete, report). -/
theorem validation_collects_every_violated_constraint :
    (∀ q : GetArticlesQueryParams,
       exceptOk (get_articles_validation q)
         = (!offsetViolated q.offset && !limitViolated q.limit)
       ∧ ∀ errs, get_articles_validation q = Except.error errs →
           namesField errs "offset" = offsetViolated q.offset
           ∧ namesField errs "limit" = limitViolated q.limit) ∧
    (∀ q : GetArticlesFeedQueryParams,
       exceptOk (get_articles_feed_validation q)
         = (!offsetViolated q.offset && !limitViolated q.limit)
       ∧ ∀ errs, get_articles_feed_validation q = Except.error errs →
           namesField errs "offset" = offsetViolated q.offset
           ∧ namesField errs "limit" = limitViolated q.limit) ∧
    (∀ b, create_article_validation b = Except.ok b) ∧
    (∀ p, delete_article_validation p = Except.ok p) ∧
    (∀ p, get_article_validation p = Except.ok p) ∧
    (∀ p b, update_article_validation p b = Except.ok (p, b)) ∧
    (∀ p b, create_article_comment_validation p b = Except.ok (p, b)) ∧
    (∀ p, delete_article_comment_validation p = Except.ok p) ∧
    (∀ p, get_article_comments_validation p = Except.ok p) ∧
    (∀ p, create_article_favorite_validation p = Except.ok p) ∧
    (∀ p, delete_article_favorite_validation p = Except.ok p) ∧
    (∀ p, follow_user_by_username_validation p = Except.ok p) ∧
    (∀ p, get_profile_by_username_validation p = Except.ok p) ∧
    (∀ p, unfollow_user_by_username_validation p = Except.ok p) ∧
    (get_tags_validation = Except.ok ()) ∧
    (∀ b, create_user_validation b = Except.ok b) ∧
    (get_current_user_validation = Except.ok ()) ∧
    (∀ b, login_validation b = Except.ok b) ∧
    (∀ b, update_current_user_validation b = Except.ok b) := by
  refine ⟨?_, ?_, fun b => rfl, fun p => rfl, fun p => rfl, fun p b => rfl,
    fun p b => rfl, fun p => rfl, fun p => rfl, fun p => rfl, fun p => rfl,
    fun p => rfl, fun p => rfl, fun p => rfl, rfl, fun b => rfl, rfl,
    fun b => rfl, fun b => rfl⟩
  · intro q
    have hq := queryRangeAccumulation q.offset q.limit
    by_cases hE : (rangeMinErrors "offset" 0 q.offset
        ++ rangeMinErrors "limit" 1 q.limit).isEmpty
    · have hval : get_articles_validation q = Except.ok q := by
        simp [get_articles_validation, GetArticlesQueryParams.validate, hE]
      refine ⟨?_, ?_⟩
      · rw [hval]
        show true = _
        rw [← hq.1, hE]
      · intro errs hbad
        rw [hval] at hbad
        exact Except.noConfusion hbad
    · have hEf : (rangeMinErrors "offset" 0 q.offset
          ++ rangeMinErrors "limit" 1 q.limit).isEmpty = false := by
        cases h2 : (rangeMinErrors "offset" 0 q.offset
            ++ rangeMinErrors "limit" 1 q.limit).isEmpty with
        | true => exact absurd h2 hE
        | false => rfl
      have hval : get_articles_validation q
          = Except.error (rangeMinErrors "offset" 0 q.offset
              ++ rangeMinErrors "limit" 1 q.limit) := by
        simp [get_articles_validation, GetArticlesQueryParams.validate, hEf]
      refine ⟨?_, ?_⟩
      · rw [hval]
        show false = _
        rw [← hq.1, hEf]
      · intro errs heq
        rw [hval] at heq
        injection heq with hinj
        subst hinj
        exact ⟨hq.2.1, hq.2.2⟩
  · intro q
    have hq := queryRangeAccumulation q.offset q.limit
    by_cases hE : (rangeMinErrors "offset" 0 q.offset
        ++ rangeMinErrors "limit" 1 q.limit).isEmpty
    · have hval : get_articles_feed_validation q = Except.ok q := by
        simp [get_articles_feed_validation, GetArticlesFeedQueryParams.validate, hE]
      refine ⟨?_, ?_⟩
      · rw [hval]
        show true = _
        rw [← hq.1, hE]
      · intro errs hbad
        rw [hval] at hbad
        exact Except.noConfusion hbad
    · have hEf : (rangeMinErrors "offset" 0 q.offset
          ++ rangeMinErrors "limit" 1 q.limit).isEmpty = false := by
        cases h2 : (rangeMinErrors "offset" 0 q.offset
            ++ rangeMinErrors "limit" 1 q.limit).isEmpty with
        | true => exact absurd h2 hE
        | false => rfl
      have hval : get_articles_feed_validation q
          = Except.error (rangeMinErrors "offset" 0 q.offset
              ++ rangeMinErrors "limit" 1 q.limit) := by
        simp [get_articles_feed_validation, GetArticlesFeedQueryParams.validate, hEf]
      refine ⟨?_, ?_⟩
      · rw [hval]
        show false = _
        rw [← hq.1, hEf]
      · intro errs heq
        rw [hval] at heq
        injection heq with hinj
        subst hinj
        exact ⟨hq.2.1, hq.2.2⟩

/-- Witness for C3: with both `offset = -1` and `limit = 0` violated on
GET /api/articles, the single error report names both fields. -/
theorem validation_collects_every_violated_constraint_witness :
    exceptOk (get_articles_validation ⟨none, none, none, some (-1), some 0⟩)
      = false
    ∧ namesField [("offset", ["range"]), ("limit", ["range"])] "offset" = true
    ∧ namesField [("offset", ["range"]), ("limit", ["range"])] "limit" = true := by
  have h := validation_collects_every_violated_constraint.1
    ⟨none, none, none, some (-1), some 0⟩
  have h2 := h.2 [("offset", ["range"]), ("limit", ["range"])] rfl
  exact ⟨h.1, h2.1, h2.2⟩

/-- The article the echo stub produces for a minimal `NewArticle` body:
`title`, `description` and `body` carried over, `tagList` defaulted to the
empty list. -/
def echoedArticle (t d b slug ca ua : String) (author : Profile) : Article :=
  { slug, title := t, description := d, body := b, tag_list := [],
    created_at := ca, updated_at := ua, favorited := false,
    favorites_count := 0, author }

/-- C4: a `NewArticle`-shaped JSON body carrying only `title`, `description`
and `body`, decoded and echoed back by a stub handler as the created
`Article`, produces a `201` JSON response that decodes back to the same three
field values with `tagList` equal to the empty list. -/
theorem new_article_minimal_body_round_trip
    (t d b slug ca ua : String) (author : Profile) (hd : HeaderMap) :
    serve_create_article (echoCreateArticleApi slug ca ua author) m0 h0 c0 hd
        (Json.obj [("article", Json.obj
          [("title", Json.str t), ("description", Json.str d),
           ("body", Json.str b)])])
      = (jsonResponse 201 (encodeCreateArticle201Response
          { article := echoedArticle t d b slug ca ua author }),
         ⟨["Authorization"], 1, 1⟩)
    ∧ decodeCreateArticle201Response (encodeCreateArticle201Response
        { article := echoedArticle t d b slug ca ua author })
      = Except.ok { article := echoedArticle t d b slug ca ua author } :=
  ⟨rfl, rfl⟩

/-- C5 counterexample: GET /api/articles/feed declares the same lower bounds,
yet a request supplying `offset = -1` whose claims do not resolve is answered
`401`, not `400` — authentication short-circuits before validation. -/
theorem below_bound_feed_without_claims_not_400 :
    (get_articles_feed noClaimsApi m0 h0 c0 [] ⟨some (-1), none⟩).1.status = 401
    ∧ ¬ (get_articles_feed noClaimsApi m0 h0 c0 []
          ⟨some (-1), none⟩).1.status = 400 :=
  ⟨rfl, by decide⟩

/-- C5 (amended): a below-bound `offset` or `limit` yields `400` with a
field-error entry naming that field and no handler call — unconditionally on
GET /api/articles, and on GET /api/articles/feed provided claims resolution
succeeds (absent claims are answered `401` before validation, as the
counterexample shows). -/
theorem below_bound_yields_400_naming_field
    {C : Type} (api : ApiImpl C) (m : Method) (h : Host) (c : CookieJar) :
    (∀ q : GetArticlesQueryParams, offsetViolated q.offset = true →
       ∃ errs, get_articles_validation q = Except.error errs
         ∧ namesField errs "offset" = true
         ∧ get_articles api m h c q = (validationFailure errs, ⟨[], 1, 0⟩)) ∧
    (∀ q : GetArticlesQueryParams, limitViolated q.limit = true →
       ∃ errs, get_articles_validation q = Except.error errs
         ∧ namesField errs "limit" = true
         ∧ get_articles api m h c q = (validationFailure errs, ⟨[], 1, 0⟩)) ∧
    (∀ (hd : HeaderMap) (q : GetArticlesFeedQueryParams) (claims : C),
       api.extract_claims_from_header hd "Authorization" = some claims →
       offsetViolated q.offset = true →
       ∃ errs, get_articles_feed_validation q = Except.error errs
         ∧ namesField errs "offset" = true
         ∧ get_articles_feed api m h c hd q
             = (validationFailure errs, ⟨["Authorization"], 1, 0⟩)) ∧
    (∀ (hd : HeaderMap) (q : GetArticlesFeedQueryParams) (claims : C),
       api.extract_claims_from_header hd "Authorization" = some claims →
       limitViolated q.limit = true →
       ∃ errs, get_articles_feed_validation q = Except.error errs
         ∧ namesField errs "limit" = true
         ∧ get_articles_feed api m h c hd q
             = (validationFailure errs, ⟨["Authorization"], 1, 0⟩)) := by
  have key : ∀ (off lim : Option Int),
      offsetViolated off = true ∨ limitViolated lim = true →
      (rangeMinErrors "offset" 0 off ++ rangeMinErrors "limit" 1 lim).isEmpty
        = false := by
    intro off lim hv
    have hq := queryRangeAccumulation off lim
    rw [hq.1]
    rcases hv with hv | hv <;> rw [hv] <;> simp
  refine ⟨?_, ?_, ?_, ?_⟩
  · intro q hviol
    have hq := queryRangeAccumulation q.offset q.limit
    have hEf := key q.offset q.limit (Or.inl hviol)
    have hval : get_articles_validation q
        = Except.error (rangeMinErrors "offset" 0 q.offset
            ++ rangeMinErrors "limit" 1 q.limit) := by
      simp [get_articles_validation, GetArticlesQueryParams.validate, hEf]
    refine ⟨_, hval, ?_, ?_⟩
    · rw [hq.2.1, hviol]
    · simp [get_articles, hval]
  · intro q hviol
    have hq := queryRangeAccumulation q.offset q.limit
    have hEf := key q.offset q.limit (Or.inr hviol)
    have hval : get_articles_validation q
        = Except.error (rangeMinErrors "offset" 0 q.offset
            ++ rangeMinErrors "limit" 1 q.limit) := by
      simp [get_articles_validation, GetArticlesQueryParams.validate, hEf]
    refine ⟨_, hval, ?_, ?_⟩
    · rw [hq.2.2, hviol]
    · simp [get_articles, hval]
  · intro hd q claims hcl hviol
    have hq := queryRangeAccumulation q.offset q.limit
    have hEf := key q.offset q.limit (Or.inl hviol)
    have hval : get_articles_feed_validation q
        = Except.error (rangeMinErrors "offset" 0 q.offset
            ++ rangeMinErrors "limit" 1 q.limit) := by
      simp [get_articles_feed_validation, GetArticlesFeedQueryParams.validate, hEf]
    refine ⟨_, hval, ?_, ?_⟩
    · rw [hq.2.1, hviol]
    · simp [get_articles_feed, hcl, Option.or, hval]
  · intro hd q claims hcl hviol
    have hq := queryRangeAccumulation q.offset q.limit
    have hEf := key q.offset q.limit (Or.inr hviol)
    have hval : get_articles_feed_validation q
        = Except.error (rangeMinErrors "offset" 0 q.offset
            ++ rangeMinErrors "limit" 1 q.limit) := by
      simp [get_articles_feed_validation, GetArticlesFeedQueryParams.validate, hEf]
    refine ⟨_, hval, ?_, ?_⟩
    · rw [hq.2.2, hviol]
    · simp [get_articles_feed, hcl, Option.or, hval]

/-- Witness for the amended C5: concrete below-bound requests on both
endpoints (claims resolving on the feed) are answered `400` with no handler
call. -/
theorem below_bound_yields_400_naming_field_witness :
    (get_articles errStubApi m0 h0 c0
       ⟨none, none, none, some (-1), none⟩).1.status = 400
    ∧ (get_articles errStubApi m0 h0 c0
       ⟨none, none, none, some (-1), none⟩).2.handlerCalls = 0
    ∧ (get_articles errStubApi m0 h0 c0
       ⟨none, none, none, none, some 0⟩).1.status = 400
    ∧ (get_articles_feed errStubApi m0 h0 c0 [] ⟨some (-1), some 5⟩).1.status = 400
    ∧ (get_articles_feed errStubApi m0 h0 c0 [] ⟨some 3, some 0⟩).1.status = 400 := by
  have h := below_bound_yields_400_naming_field errStubApi m0 h0 c0
  obtain ⟨e1, -, -, hr1⟩ := h.1 ⟨none, none, none, some (-1), none⟩ (by decide)
  obtain ⟨e2, -, -, hr2⟩ := h.2.1 ⟨none, none, none, none, some 0⟩ (by decide)
  obtain ⟨e3, -, -, hr3⟩ := h.2.2.1 [] ⟨some (-1), some 5⟩ () rfl (by decide)
  obtain ⟨e4, -, -, hr4⟩ := h.2.2.2 [] ⟨some 3, some 0⟩ () rfl (by decide)
  exact ⟨by rw [hr1]; try rfl, by rw [hr1]; try rfl, by rw [hr2]; try rfl,
    by rw [hr3]; try rfl, by rw [hr4]; try rfl⟩

/-- C6: on every body-bearing endpoint, a body that fails JSON decoding is
answered `400 Bad Request` with the decode error text as the body, and
nothing runs downstream: no claims extraction, no validation, no handler
call. -/
theorem malformed_body_rejected_before_pipeline
    {C : Type} (api : ApiImpl C) (m : Method) (h : Host) (c : CookieJar)
    (hd : HeaderMap) :
    (∀ raw e, decodeCreateArticleRequest raw = Except.error e →
       serve_create_article api m h c hd raw = (decodeFailure e, rejectedTrace)) ∧
    (∀ p raw e, decodeUpdateArticleRequest raw = Except.error e →
       serve_update_article api m h c hd p raw = (decodeFailure e, rejectedTrace)) ∧
    (∀ p raw e, decodeCreateArticleCommentRequest raw = Except.error e →
       serve_create_article_comment api m h c hd p raw
         = (decodeFailure e, rejectedTrace)) ∧
    (∀ raw e, decodeCreateUserRequest raw = Except.error e →
       serve_create_user api m h c hd raw = (decodeFailure e, rejectedTrace)) ∧
    (∀ raw e, decodeLoginRequest raw = Except.error e →
       serve_login api m h c hd raw = (decodeFailure e, rejectedTrace)) ∧
    (∀ raw e, decodeUpdateCurrentUserRequest raw = Except.error e →
       serve_update_current_user api m h c hd raw
         = (decodeFailure e, rejectedTrace)) := by
  refine ⟨?_, ?_, ?_, ?_, ?_, ?_⟩
  · intro raw e hdec
    simp [serve_create_article, hdec]
  · intro p raw e hdec
    simp [serve_update_article, hdec]
  · intro p raw e hdec
    simp [serve_create_article_comment, hdec]
  · intro raw e hdec
    simp [serve_create_user, hdec]
  · intro raw e hdec
    simp [serve_login, hdec]
  · intro raw e hdec
    simp [serve_update_current_user, hdec]

/-- Witness for C6: concrete malformed bodies — an empty object (missing the
required envelope field) and a `NewArticle` missing `title` (reported by its
full path `article.title`) — are rejected with the decode error text and zero
collaborator calls. -/
theorem malformed_body_rejected_before_pipeline_witness :
    serve_create_article errStubApi m0 h0 c0 [] (Json.obj [])
      = (decodeFailure "article missing", rejectedTrace)
    ∧ serve_create_article errStubApi m0 h0 c0 []
        (Json.obj [("article", Json.obj
          [("description", Json.str "d"), ("body", Json.str "b")])])
      = (decodeFailure "article.title missing", rejectedTrace)
    ∧ serve_update_article errStubApi m0 h0 c0 [] ⟨"s"⟩ (Json.obj [])
      = (decodeFailure "article missing", rejectedTrace)
    ∧ serve_create_article_comment errStubApi m0 h0 c0 [] ⟨"s"⟩ (Json.obj [])
      = (decodeFailure "comment missing", rejectedTrace)
    ∧ serve_create_user errStubApi m0 h0 c0 [] (Json.obj [])
      = (decodeFailure "user missing", rejectedTrace)
    ∧ serve_login errStubApi m0 h0 c0 [] (Json.obj [])
      = (decodeFailure "user missing", rejectedTrace)
    ∧ serve_update_current_user errStubApi m0 h0 c0 [] (Json.obj [])
      = (decodeFailure "user missing", rejectedTrace) := by
  have h := malformed_body_rejected_before_pipeline errStubApi m0 h0 c0 []
  exact ⟨h.1 _ _ rfl, h.1 _ _ rfl, h.2.1 _ _ _ rfl, h.2.2.1 _ _ _ rfl,
    h.2.2.2.1 _ _ rfl, h.2.2.2.2.1 _ _ rfl, h.2.2.2.2.2 _ _ rfl⟩

/-- C7: on every endpoint, when the validation function returns an error
collection, the dispatcher answers `400 Bad Request` with the serialized
collection as the body, and the handler-contract operation is not invoked. -/
theorem validation_errors_yield_400_without_handler
    {C : Type} (api : ApiImpl C) (m : Method) (h : Host) (c : CookieJar) :
    (∀ (hd : HeaderMap) claims b errs,
       api.extract_claims_from_header hd "Authorization" = some claims →
       create_article_validation b = Except.error errs →
       create_article api m h c hd b
         = (validationFailure errs, ⟨["Authorization"], 1, 0⟩)) ∧
    (∀ (hd : HeaderMap) claims p errs,
       api.extract_claims_from_header hd "Authorization" = some claims →
       delete_article_validation p = Except.error errs →
       delete_article api m h c hd p
         = (validationFailure errs, ⟨["Authorization"], 1, 0⟩)) ∧
    (∀ p errs, get_article_validation p = Except.error errs →
       get_article api m h c p = (validationFailure errs, ⟨[], 1, 0⟩)) ∧
    (∀ q errs, get_articles_validation q = Except.error errs →
       get_articles api m h c q = (validationFailure errs, ⟨[], 1, 0⟩)) ∧
    (∀ (hd : HeaderMap) claims q errs,
       api.extract_claims_from_header hd "Authorization" = some claims →
       get_articles_feed_validation q = Except.error errs →
       get_articles_feed api m h c hd q
         = (validationFailure errs, ⟨["Authorization"], 1, 0⟩)) ∧
    (∀ (hd : HeaderMap) claims p b errs,
       api.extract_claims_from_header hd "Authorization" = some claims →
       update_article_validation p b = Except.error errs →
       update_article api m h c hd p b
         = (validationFailure errs, ⟨["Authorization"], 1, 0⟩)) ∧
    (∀ (hd : HeaderMap) claims p b errs,
       api.extract_claims_from_header hd "Authorization" = some claims →
       create_article_comment_validation p b = Except.error errs →
       create_article_comment api m h c hd p b
         = (validationFailure errs, ⟨["Authorization"], 1, 0⟩)) ∧
    (∀ (hd : HeaderMap) claims p errs,
       api.extract_claims_from_header hd "Authorization" = some claims →
       delete_article_comment_validation p = Except.error errs →
       delete_article_comment api m h c hd p
         = (validationFailure errs, ⟨["Authorization"], 1, 0⟩)) ∧
    (∀ p errs, get_article_comments_validation p = Except.error errs →
       get_article_comments api m h c p = (validationFailure errs, ⟨[], 1, 0⟩)) ∧
    (∀ (hd : HeaderMap) claims p errs,
       api.extract_claims_from_header hd "Authorization" = some claims →
       create_article_favorite_validation p = Except.error errs →
       create_article_favorite api m h c hd p
         = (validationFailure errs, ⟨["Authorization"], 1, 0⟩)) ∧
    (∀ (hd : HeaderMap) claims p errs,
       api.extract_claims_from_header hd "Authorization" = some claims →
       delete_article_favorite_validation p = Except.error errs →
       delete_article_favorite api m h c hd p
         = (validationFailure errs, ⟨["Authorization"], 1, 0⟩)) ∧
    (∀ (hd : HeaderMap) claims p errs,
       api.extract_claims_from_header hd "Authorization" = some claims →
       follow_user_by_username_validation p = Except.error errs →
       follow_user_by_username api m h c hd p
         = (validationFailure errs, ⟨["Authorization"], 1, 0⟩)) ∧
    (∀ p errs, get_profile_by_username_validation p = Except.error errs →
       get_profile_by_username api m h c p
         = (validationFailure errs, ⟨[], 1, 0⟩)) ∧
    (∀ (hd : HeaderMap) claims p errs,
       api.extract_claims_from_header hd "Authorization" = some claims →
       unfollow_user_by_username_validation p = Except.error errs →
       unfollow_user_by_username api m h c hd p
         = (validationFailure errs, ⟨["Authorization"], 1, 0⟩)) ∧
    (∀ errs, get_tags_validation = Except.error errs →
       get_tags api m h c = (validationFailure errs, ⟨[], 1, 0⟩)) ∧
    (∀ b errs, create_user_validation b = Except.error errs →
       create_user api m h c b = (validationFailure errs, ⟨[], 1, 0⟩)) ∧
    (∀ (hd : HeaderMap) claims errs,
       api.extract_claims_from_header hd "Authorization" = some claims →
       get_current_user_validation = Except.error errs →
       get_current_user api m h c hd
         = (validationFailure errs, ⟨["Authorization"], 1, 0⟩)) ∧
    (∀ b errs, login_validation b = Except.error errs →
       login api m h c b = (validationFailure errs, ⟨[], 1, 0⟩)) ∧
    (∀ (hd : HeaderMap) claims b errs,
       api.extract_claims_from_header hd "Authorization" = some claims →
       update_current_user_validation b = Except.error errs →
       update_current_user api m h c hd b
         = (validationFailure errs, ⟨["Authorization"], 1, 0⟩)) := by
  refine ⟨?_, ?_, ?_, ?_, ?_, ?_, ?_, ?_, ?_, ?_, ?_, ?_, ?_, ?_, ?_, ?_,
    ?_, ?_, ?_⟩
  · intro hd claims b errs hcl hv
    simp [create_article, hcl, Option.or, hv]
  · intro hd claims p errs hcl hv
    simp [delete_article, hcl, Option.or, hv]
  · intro p errs hv
    simp [get_article, hv]
  · intro q errs hv
    simp [get_articles, hv]
  · intro hd claims q errs hcl hv
    simp [get_articles_feed, hcl, Option.or, hv]
  · intro hd claims p b errs hcl hv
    simp [update_article, hcl, Option.or, hv]
  · intro hd claims p b errs hcl hv
    simp [create_article_comment, hcl, Option.or, hv]
  · intro hd claims p errs hcl hv
    simp [delete_article_comment, hcl, Option.or, hv]
  · intro p errs hv
    simp [get_article_comments, hv]
  · intro hd claims p errs hcl hv
    simp [create_article_favorite, hcl, Option.or, hv]
  · intro hd claims p errs hcl hv
    simp [delete_article_favorite, hcl, Option.or, hv]
  · intro hd claims p errs hcl hv
    simp [follow_user_by_username, hcl, Option.or, hv]
  · intro p errs hv
    simp [get_profile_by_username, hv]
  · intro hd claims p errs hcl hv
    simp [unfollow_user_by_username, hcl, Option.or, hv]
  · intro errs hv
    exact absurd hv (by simp [get_tags_validation])
  · intro b errs hv
    simp [create_user, hv]
  · intro hd claims errs hcl hv
    exact absurd hv (by simp [get_current_user_validation])
  · intro b errs hv
    simp [login, hv]
  · intro hd claims b errs hcl hv
    simp [update_current_user, hcl, Option.or, hv]

/-- Witness for C7: concrete failing validations on the two constrained
endpoints are answered `400` with the rendered error collection and no
handler call. -/
theorem validation_errors_yield_400_without_handler_witness :
    get_articles errStubApi m0 h0 c0 ⟨none, none, none, some (-1), none⟩
      = (validationFailure [("offset", ["range"])], ⟨[], 1, 0⟩)
    ∧ get_articles_feed errStubApi m0 h0 c0 [] ⟨some (-1), some 0⟩
      = (validationFailure [("offset", ["range"]), ("limit", ["range"])],
         ⟨["Authorization"], 1, 0⟩) := by
  have h := validation_errors_yield_400_without_handler errStubApi m0 h0 c0
  exact ⟨h.2.2.2.1 ⟨none, none, none, some (-1), none⟩ _ rfl,
    h.2.2.2.2.1 [] () ⟨some (-1), some 0⟩ _ rfl rfl⟩

/-- C8: on every endpoint, when the handler-contract operation returns the
internal-failure signal `Err(())` (distinct from every declared outcome
variant), the dispatcher answers `500 Internal Server Error` with an empty
body — no failure detail — and the handler ran exactly once (no retry). -/
theorem handler_internal_failure_yields_500_empty_once
    {C : Type} (api : ApiImpl C) (m : Method) (h : Host) (c : CookieJar) :
    (∀ (hd : HeaderMap) claims b b2,
       api.extract_claims_from_header hd "Authorization" = some claims →
       create_article_validation b = Except.ok b2 →
       api.create_article m h c claims b2 = Except.error () →
       create_article api m h c hd b
         = (emptyResponse 500, ⟨["Authorization"], 1, 1⟩)) ∧
    (∀ (hd : HeaderMap) claims p p2,
       api.extract_claims_from_header hd "Authorization" = some claims →
       delete_article_validation p = Except.ok p2 →
       api.delete_article m h c claims p2 = Except.error () →
       delete_article api m h c hd p
         = (emptyResponse 500, ⟨["Authorization"], 1, 1⟩)) ∧
    (∀ p p2, get_article_validation p = Except.ok p2 →
       api.get_article m h c p2 = Except.error () →
       get_article api m h c p = (emptyResponse 500, ⟨[], 1, 1⟩)) ∧
    (∀ q q2, get_articles_validation q = Except.ok q2 →
       api.get_articles m h c q2 = Except.error () →
       get_articles api m h c q = (emptyResponse 500, ⟨[], 1, 1⟩)) ∧
    (∀ (hd : HeaderMap) claims q q2,
       api.extract_claims_from_header hd "Authorization" = some claims →
       get_articles_feed_validation q = Except.ok q2 →
       api.get_articles_feed m h c claims q2 = Except.error () →
       get_articles_feed api m h c hd q
         = (emptyResponse 500, ⟨["Authorization"], 1, 1⟩)) ∧
    (∀ (hd : HeaderMap) claims p b p2 b2,
       api.extract_claims_from_header hd "Authorization" = some claims →
       update_article_validation p b = Except.ok (p2, b2) →
       api.update_article m h c claims p2 b2 = Except.error () →
       update_article api m h c hd p b
         = (emptyResponse 500, ⟨["Authorization"], 1, 1⟩)) ∧
    (∀ (hd : HeaderMap) claims p b p2 b2,
       api.extract_claims_from_header hd "Authorization" = some claims →
       create_article_comment_validation p b = Except.ok (p2, b2) →
       api.create_article_comment m h c claims p2 b2 = Except.error () →
       create_article_comment api m h c hd p b
         = (emptyResponse 500, ⟨["Authorization"], 1, 1⟩)) ∧
    (∀ (hd : HeaderMap) claims p p2,
       api.extract_claims_from_header hd "Authorization" = some claims →
       delete_article_comment_validation p = Except.ok p2 →
       api.delete_article_comment m h c claims p2 = Except.error () →
       delete_article_comment api m h c hd p
         = (emptyResponse 500, ⟨["Authorization"], 1, 1⟩)) ∧
    (∀ p p2, get_article_comments_validation p = Except.ok p2 →
       api.get_article_comments m h c p2 = Except.error () →
       get_article_comments api m h c p = (emptyResponse 500, ⟨[], 1, 1⟩)) ∧
    (∀ (hd : HeaderMap) claims p p2,
       api.extract_claims_from_header hd "Authorization" = some claims →
       create_article_favorite_validation p = Except.ok p2 →
       api.create_article_favorite m h c claims p2 = Except.error () →
       create_article_favorite api m h c hd p
         = (emptyResponse 500, ⟨["Authorization"], 1, 1⟩)) ∧
    (∀ (hd : HeaderMap) claims p p2,
       api.extract_claims_from_header hd "Authorization" = some claims →
       delete_article_favorite_validation p = Except.ok p2 →
       api.delete_article_favorite m h c claims p2 = Except.error () →
       delete_article_favorite api m h c hd p
         = (emptyResponse 500, ⟨["Authorization"], 1, 1⟩)) ∧
    (∀ (hd : HeaderMap) claims p p2,
       api.extract_claims_from_header hd "Authorization" = some claims →
       follow_user_by_username_validation p = Except.ok p2 →
       api.follow_user_by_username m h c claims p2 = Except.error () →
       follow_user_by_username api m h c hd p
         = (emptyResponse 500, ⟨["Authorization"], 1, 1⟩)) ∧
    (∀ p p2, get_profile_by_username_validation p = Except.ok p2 →
       api.get_profile_by_username m h c p2 = Except.error () →
       get_profile_by_username api m h c p = (emptyResponse 500, ⟨[], 1, 1⟩)) ∧
    (∀ (hd : HeaderMap) claims p p2,
       api.extract_claims_from_header hd "Authorization" = some claims →
       unfollow_user_by_username_validation p = Except.ok p2 →
       api.unfollow_user_by_username m h c claims p2 = Except.error () →
       unfollow_user_by_username api m h c hd p
         = (emptyResponse 500, ⟨["Authorization"], 1, 1⟩)) ∧
    (api.get_tags m h c = Except.error () →
       get_tags api m h c = (emptyResponse 500, ⟨[], 1, 1⟩)) ∧
    (∀ b b2, create_user_validation b = Except.ok b2 →
       api.create_user m h c b2 = Except.error () →
       create_user api m h c b = (emptyResponse 500, ⟨[], 1, 1⟩)) ∧
    (∀ (hd : HeaderMap) claims,
       api.extract_claims_from_header hd "Authorization" = some claims →
       api.get_current_user m h c claims = Except.error () →
       get_current_user api m h c hd
         = (emptyResponse 500, ⟨["Authorization"], 1, 1⟩)) ∧
    (∀ b b2, login_validation b = Except.ok b2 →
       api.login m h c b2 = Except.error () →
       login api m h c b = (emptyResponse 500, ⟨[], 1, 1⟩)) ∧
    (∀ (hd : HeaderMap) claims b b2,
       api.extract_claims_from_header hd "Authorization" = some claims →
       update_current_user_validation b = Except.ok b2 →
       api.update_current_user m h c claims b2 = Except.error () →
       update_current_user api m h c hd b
         = (emptyResponse 500, ⟨["Authorization"], 1, 1⟩)) := by
  refine ⟨?_, ?_, ?_, ?_, ?_, ?_, ?_, ?_, ?_, ?_, ?_, ?_, ?_, ?_, ?_, ?_,
    ?_, ?_, ?_⟩
  · intro hd claims b b2 hcl hv hr
    simp [create_article, hcl, Option.or, hv, hr]
  · intro hd claims p p2 hcl hv hr
    simp [delete_article, hcl, Option.or, hv, hr]
  · intro p p2 hv hr
    simp [get_article, hv, hr]
  · intro q q2 hv hr
    simp [get_articles, hv, hr]
  · intro hd claims q q2 hcl hv hr
    simp [get_articles_feed, hcl, Option.or, hv, hr]
  · intro hd claims p b p2 b2 hcl hv hr
    simp [update_article, hcl, Option.or, hv, hr]
  · intro hd claims p b p2 b2 hcl hv hr
    simp [create_article_comment, hcl, Option.or, hv, hr]
  · intro hd claims p p2 hcl hv hr
    simp [delete_article_comment, hcl, Option.or, hv, hr]
  · intro p p2 hv hr
    simp [get_article_comments, hv, hr]
  · intro hd claims p p2 hcl hv hr
    simp [create_article_favorite, hcl, Option.or, hv, hr]
  · intro hd claims p p2 hcl hv hr
    simp [delete_article_favorite, hcl, Option.or, hv, hr]
  · intro hd claims p p2 hcl hv hr
    simp [follow_user_by_username, hcl, Option.or, hv, hr]
  · intro p p2 hv hr
    simp [get_profile_by_username, hv, hr]
  · intro hd claims p p2 hcl hv hr
    simp [unfollow_user_by_username, hcl, Option.or, hv, hr]
  · intro hr
    simp [get_tags, get_tags_validation, hr]
  · intro b b2 hv hr
    simp [create_user, hv, hr]
  · intro hd claims hcl hr
    simp [get_current_user, hcl, Option.or, get_current_user_validation, hr]
  · intro b b2 hv hr
    simp [login, hv, hr]
  · intro hd claims b b2 hcl hv hr
    simp [update_current_user, hcl, Option.or, hv, hr]

/-- Witness for C8: on a stub whose operations all return `Err(())` and whose
claims always resolve, every endpoint answers `500` with empty body after
exactly one handler call. -/
theorem handler_internal_failure_yields_500_empty_once_witness :
    create_article errStubApi m0 h0 c0 [] ⟨⟨"t", "d", "b", none⟩⟩
      = (emptyResponse 500, ⟨["Authorization"], 1, 1⟩)
    ∧ delete_article errStubApi m0 h0 c0 [] ⟨"s"⟩
      = (emptyResponse 500, ⟨["Authorization"], 1, 1⟩)
    ∧ get_article errStubApi m0 h0 c0 ⟨"s"⟩
      = (emptyResponse 500, ⟨[], 1, 1⟩)
    ∧ get_articles errStubApi m0 h0 c0 ⟨none, none, none, none, none⟩
      = (emptyResponse 500, ⟨[], 1, 1⟩)
    ∧ get_articles_feed errStubApi m0 h0 c0 [] ⟨none, none⟩
      = (emptyResponse 500, ⟨["Authorization"], 1, 1⟩)
    ∧ update_article errStubApi m0 h0 c0 [] ⟨"s"⟩ ⟨⟨none, none, none⟩⟩
      = (emptyResponse 500, ⟨["Authorization"], 1, 1⟩)
    ∧ create_article_comment errStubApi m0 h0 c0 [] ⟨"s"⟩ ⟨⟨"hi"⟩⟩
      = (emptyResponse 500, ⟨["Authorization"], 1, 1⟩)
    ∧ delete_article_comment errStubApi m0 h0 c0 [] ⟨"s", 1⟩
      = (emptyResponse 500, ⟨["Authorization"], 1, 1⟩)
    ∧ get_article_comments errStubApi m0 h0 c0 ⟨"s"⟩
      = (emptyResponse 500, ⟨[], 1, 1⟩)
    ∧ create_article_favorite errStubApi m0 h0 c0 [] ⟨"s"⟩
      = (emptyResponse 500, ⟨["Authorization"], 1, 1⟩)
    ∧ delete_article_favorite errStubApi m0 h0 c0 [] ⟨"s"⟩
      = (emptyResponse 500, ⟨["Authorization"], 1, 1⟩)
    ∧ follow_user_by_username errStubApi m0 h0 c0 [] ⟨"u"⟩
      = (emptyResponse 500, ⟨["Authorization"], 1, 1⟩)
    ∧ get_profile_by_username errStubApi m0 h0 c0 ⟨"u"⟩
      = (emptyResponse 500, ⟨[], 1, 1⟩)
    ∧ unfollow_user_by_username errStubApi m0 h0 c0 [] ⟨"u"⟩
      = (emptyResponse 500, ⟨["Authorization"], 1, 1⟩)
    ∧ get_tags errStubApi m0 h0 c0 = (emptyResponse 500, ⟨[], 1, 1⟩)
    ∧ create_user errStubApi m0 h0 c0 ⟨⟨"bob", "e", "pw"⟩⟩
      = (emptyResponse 500, ⟨[], 1, 1⟩)
    ∧ get_current_user errStubApi m0 h0 c0 []
      = (emptyResponse 500, ⟨["Authorization"], 1, 1⟩)
    ∧ login errStubApi m0 h0 c0 ⟨⟨"e", "pw"⟩⟩
      = (emptyResponse 500, ⟨[], 1, 1⟩)
    ∧ update_current_user errStubApi m0 h0 c0 []
        ⟨⟨none, none, none, none, none⟩⟩
      = (emptyResponse 500, ⟨["Authorization"], 1, 1⟩) := by
  have h := handler_internal_failure_yields_500_empty_once errStubApi m0 h0 c0
  refine ⟨h.1 [] () _ _ rfl rfl rfl, h.2.1 [] () _ _ rfl rfl rfl,
    h.2.2.1 _ _ rfl rfl, h.2.2.2.1 _ _ rfl rfl,
    h.2.2.2.2.1 [] () _ _ rfl rfl rfl,
    h.2.2.2.2.2.1 [] () _ _ _ _ rfl rfl rfl,
    h.2.2.2.2.2.2.1 [] () _ _ _ _ rfl rfl rfl,
    h.2.2.2.2.2.2.2.1 [] () _ _ rfl rfl rfl,
    h.2.2.2.2.2.2.2.2.1 _ _ rfl rfl,
    h.2.2.2.2.2.2.2.2.2.1 [] () _ _ rfl rfl rfl,
    h.2.2.2.2.2.2.2.2.2.2.1 [] () _ _ rfl rfl rfl,
    h.2.2.2.2.2.2.2.2.2.2.2.1 [] () _ _ rfl rfl rfl,
    h.2.2.2.2.2.2.2.2.2.2.2.2.1 _ _ rfl rfl,
    h.2.2.2.2.2.2.2.2.2.2.2.2.2.1 [] () _ _ rfl rfl rfl,
    h.2.2.2.2.2.2.2.2.2.2.2.2.2.2.1 rfl,
    h.2.2.2.2.2.2.2.2.2.2.2.2.2.2.2.1 _ _ rfl rfl,
    h.2.2.2.2.2.2.2.2.2.2.2.2.2.2.2.2.1 [] () rfl rfl,
    h.2.2.2.2.2.2.2.2.2.2.2.2.2.2.2.2.2.1 _ _ rfl rfl,
    h.2.2.2.2.2.2.2.2.2.2.2.2.2.2.2.2.2.2 [] () _ _ rfl rfl rfl⟩

/-- C9: POST /api/users with body
`{"user":{"username":"bob","email":"bob@x.com","password":"secret"}}` against
a stub handler returning `Status201_User` yields HTTP `201` with
`content-type: application/json` and a JSON body that decodes back into the
`Login200Response` envelope; and, across every operation, each declared
outcome variant maps to one fixed status code, independent of its payload. -/
theorem create_user_scenario_and_outcome_status_map :
    (∀ (payload : Login200Response) (hd : HeaderMap),
       serve_create_user (createUserStubApi payload) m0 h0 c0 hd
           (Json.obj [("user", Json.obj
             [("username", Json.str "bob"), ("email", Json.str "bob@x.com"),
              ("password", Json.str "secret")])])
         = (jsonResponse 201 (encodeLogin200Response payload), ⟨[], 1, 1⟩)
       ∧ (jsonResponse 201 (encodeLogin200Response payload)).contentType
           = some "application/json"
       ∧ decodeLogin200Response (encodeLogin200Response payload)
           = Except.ok payload) ∧
    (∀ b, (mapCreateArticleResponse
       (CreateArticleResponse.Status201_SingleArticle b)).status = 201) ∧
    ((mapCreateArticleResponse
       CreateArticleResponse.Status401_Unauthorized).status = 401) ∧
    (∀ b, (mapCreateArticleResponse
       (CreateArticleResponse.Status422_UnexpectedError b)).status = 422) ∧
    ((mapDeleteArticleResponse
       DeleteArticleResponse.Status200_NoContent).status = 200) ∧
    ((mapDeleteArticleResponse
       DeleteArticleResponse.Status401_Unauthorized).status = 401) ∧
    (∀ b, (mapDeleteArticleResponse
       (DeleteArticleResponse.Status422_UnexpectedError b)).status = 422) ∧
    (∀ b, (mapGetArticleResponse
       (GetArticleResponse.Status200_SingleArticle b)).status = 200) ∧
    (∀ b, (mapGetArticleResponse
       (GetArticleResponse.Status422_UnexpectedError b)).status = 422) ∧
    (∀ b, (mapGetArticlesResponse
       (GetArticlesResponse.Status200_MultipleArticles b)).status = 200) ∧
    ((mapGetArticlesResponse
       GetArticlesResponse.Status401_Unauthorized).status = 401) ∧
    (∀ b, (mapGetArticlesResponse
       (GetArticlesResponse.Status422_UnexpectedError b)).status = 422) ∧
    (∀ b, (mapGetArticlesFeedResponse
       (GetArticlesFeedResponse.Status200_MultipleArticles b)).status = 200) ∧
    ((mapGetArticlesFeedResponse
       GetArticlesFeedResponse.Status401_Unauthorized).status = 401) ∧
    (∀ b, (mapGetArticlesFeedResponse
       (GetArticlesFeedResponse.Status422_UnexpectedError b)).status = 422) ∧
    (∀ b, (mapUpdateArticleResponse
       (UpdateArticleResponse.Status200_SingleArticle b)).status = 200) ∧
    ((mapUpdateArticleResponse
       UpdateArticleResponse.Status401_Unauthorized).status = 401) ∧
    (∀ b, (mapUpdateArticleResponse
       (UpdateArticleResponse.Status422_UnexpectedError b)).status = 422) ∧
    (∀ b, (mapCreateArticleCommentResponse
       (CreateArticleCommentResponse.Status200_SingleComment b)).status = 200) ∧
    ((mapCreateArticleCommentResponse
       CreateArticleCommentResponse.Status401_Unauthorized).status = 401) ∧
    (∀ b, (mapCreateArticleCommentResponse
       (CreateArticleCommentResponse.Status422_UnexpectedError b)).status = 422) ∧
    ((mapDeleteArticleCommentResponse
       DeleteArticleCommentResponse.Status200_NoContent).status = 200) ∧
    ((mapDeleteArticleCommentResponse
       DeleteArticleCommentResponse.Status401_Unauthorized).status = 401) ∧
    (∀ b, (mapDeleteArticleCommentResponse
       (DeleteArticleCommentResponse.Status422_UnexpectedError b)).status = 422) ∧
    (∀ b, (mapGetArticleCommentsResponse
       (GetArticleCommentsResponse.Status200_MultipleComments b)).status = 200) ∧
    ((mapGetArticleCommentsResponse
       GetArticleCommentsResponse.Status401_Unauthorized).status = 401) ∧
    (∀ b, (mapGetArticleCommentsResponse
       (GetArticleCommentsResponse.Status422_UnexpectedError b)).status = 422) ∧
    (∀ b, (mapCreateArticleFavoriteResponse
       (CreateArticleFavoriteResponse.Status200_SingleArticle b)).status = 200) ∧
    ((mapCreateArticleFavoriteResponse
       CreateArticleFavoriteResponse.Status401_Unauthorized).status = 401) ∧
    (∀ b, (mapCreateArticleFavoriteResponse
       (CreateArticleFavoriteResponse.Status422_UnexpectedError b)).status = 422) ∧
    (∀ b, (mapDeleteArticleFavoriteResponse
       (DeleteArticleFavoriteResponse.Status200_SingleArticle b)).status = 200) ∧
    ((mapDeleteArticleFavoriteResponse
       DeleteArticleFavoriteResponse.Status401_Unauthorized).status = 401) ∧
    (∀ b, (mapDeleteArticleFavoriteResponse
       (DeleteArticleFavoriteResponse.Status422_UnexpectedError b)).status = 422) ∧
    (∀ b, (mapFollowUserByUsernameResponse
       (FollowUserByUsernameResponse.Status200_Profile b)).status = 200) ∧
    ((mapFollowUserByUsernameResponse
       FollowUserByUsernameResponse.Status401_Unauthorized).status = 401) ∧
    (∀ b, (mapFollowUserByUsernameResponse
       (FollowUserByUsernameResponse.Status422_UnexpectedError b)).status = 422) ∧
    (∀ b, (mapGetProfileByUsernameResponse
       (GetProfileByUsernameResponse.Status200_Profile b)).status = 200) ∧
    ((mapGetProfileByUsernameResponse
       GetProfileByUsernameResponse.Status401_Unauthorized).status = 401) ∧
    (∀ b, (mapGetProfileByUsernameResponse
       (GetProfileByUsernameResponse.Status422_UnexpectedError b)).status = 422) ∧
    (∀ b, (mapUnfollowUserByUsernameResponse
       (UnfollowUserByUsernameResponse.Status200_Profile b)).status = 200) ∧
    ((mapUnfollowUserByUsernameResponse
       UnfollowUserByUsernameResponse.Status401_Unauthorized).status = 401) ∧
    (∀ b, (mapUnfollowUserByUsernameResponse
       (UnfollowUserByUsernameResponse.Status422_UnexpectedError b)).status = 422) ∧
    (∀ b, (mapGetTagsResponse
       (GetTagsResponse.Status200_Tags b)).status = 200) ∧
    (∀ b, (mapGetTagsResponse
       (GetTagsResponse.Status422_UnexpectedError b)).status = 422) ∧
    (∀ b, (mapCreateUserResponse
       (CreateUserResponse.Status201_User b)).status = 201) ∧
    (∀ b, (mapCreateUserResponse
       (CreateUserResponse.Status422_UnexpectedError b)).status = 422) ∧
    (∀ b, (mapGetCurrentUserResponse
       (GetCurrentUserResponse.Status200_User b)).status = 200) ∧
    ((mapGetCurrentUserResponse
       GetCurrentUserResponse.Status401_Unauthorized).status = 401) ∧
    (∀ b, (mapGetCurrentUserResponse
       (GetCurrentUserResponse.Status422_UnexpectedError b)).status = 422) ∧
    (∀ b, (mapLoginResponse
       (LoginResponse.Status200_User b)).status = 200) ∧
    ((mapLoginResponse LoginResponse.Status401_Unauthorized).status = 401) ∧
    (∀ b, (mapLoginResponse
       (LoginResponse.Status422_UnexpectedError b)).status = 422) ∧
    (∀ b, (mapUpdateCurrentUserResponse
       (UpdateCurrentUserResponse.Status200_User b)).status = 200) ∧
    ((mapUpdateCurrentUserResponse
       UpdateCurrentUserResponse.Status401_Unauthorized).status = 401) ∧
    (∀ b, (mapUpdateCurrentUserResponse
       (UpdateCurrentUserResponse.Status422_UnexpectedError b)).status = 422) :=
  ⟨fun _ _ => ⟨rfl, rfl, rfl⟩,
   fun _ => rfl, rfl, fun _ => rfl,
   rfl, rfl, fun _ => rfl,
   fun _ => rfl, fun _ => rfl,
   fun _ => rfl, rfl, fun _ => rfl,
   fun _ => rfl, rfl, fun _ => rfl,
   fun _ => rfl, rfl, fun _ => rfl,
   fun _ => rfl, rfl, fun _ => rfl,
   rfl, rfl, fun _ => rfl,
   fun _ => rfl, rfl, fun _ => rfl,
   fun _ => rfl, rfl, fun _ => rfl,
   fun _ => rfl, rfl, fun _ => rfl,
   fun _ => rfl, rfl, fun _ => rfl,
   fun _ => rfl, rfl, fun _ => rfl,
   fun _ => rfl, rfl, fun _ => rfl,
   fun _ => rfl, fun _ => rfl,
   fun _ => rfl, fun _ => rfl,
   fun _ => rfl, rfl, fun _ => rfl,
   fun _ => rfl, rfl, fun _ => rfl,
   fun _ => rfl, rfl, fun _ => rfl⟩

/-- C10: the seven endpoints without an authentication requirement never
invoke claims extraction and their responses are identical for any two
requests differing only in their header map; every other endpoint passes
exactly the literal key `"Authorization"` to `extract_claims_from_header`. -/
theorem public_routes_ignore_headers_auth_routes_use_authorization_key
    {C : Type} (api : ApiImpl C) (m : Method) (h : Host) (c : CookieJar) :
    (∀ hd hd2 p, serve_get_article api m h c hd p
       = serve_get_article api m h c hd2 p) ∧
    (∀ p, (get_article api m h c p).2.extractKeys = []) ∧
    (∀ hd hd2 q, serve_get_articles api m h c hd q
       = serve_get_articles api m h c hd2 q) ∧
    (∀ q, (get_articles api m h c q).2.extractKeys = []) ∧
    (∀ hd hd2 p, serve_get_article_comments api m h c hd p
       = serve_get_article_comments api m h c hd2 p) ∧
    (∀ p, (get_article_comments api m h c p).2.extractKeys = []) ∧
    (∀ hd hd2 p, serve_get_profile_by_username api m h c hd p
       = serve_get_profile_by_username api m h c hd2 p) ∧
    (∀ hd hd2, serve_get_tags api m h c hd = serve_get_tags api m h c hd2) ∧
    ((get_tags api m h c).2.extractKeys = []) ∧
    (∀ hd hd2 raw, serve_create_user api m h c hd raw
       = serve_create_user api m h c hd2 raw) ∧
    (∀ b, (create_user api m h c b).2.extractKeys = []) ∧
    (∀ hd hd2 raw, serve_login api m h c hd raw
       = serve_login api m h c hd2 raw) ∧
    (∀ b, (login api m h c b).2.extractKeys = []) ∧
    (∀ p, (get_profile_by_username api m h c p).2.extractKeys = []) ∧
    (∀ hd b, (create_article api m h c hd b).2.extractKeys
       = ["Authorization"]) ∧
    (∀ hd p, (delete_article api m h c hd p).2.extractKeys
       = ["Authorization"]) ∧
    (∀ hd q, (get_articles_feed api m h c hd q).2.extractKeys
       = ["Authorization"]) ∧
    (∀ hd p b, (update_article api m h c hd p b).2.extractKeys
       = ["Authorization"]) ∧
    (∀ hd p b, (create_article_comment api m h c hd p b).2.extractKeys
       = ["Authorization"]) ∧
    (∀ hd p, (delete_article_comment api m h c hd p).2.extractKeys
       = ["Authorization"]) ∧
    (∀ hd p, (create_article_favorite api m h c hd p).2.extractKeys
       = ["Authorization"]) ∧
    (∀ hd p, (delete_article_favorite api m h c hd p).2.extractKeys
       = ["Authorization"]) ∧
    (∀ hd p, (follow_user_by_username api m h c hd p).2.extractKeys
       = ["Authorization"]) ∧
    (∀ hd p, (unfollow_user_by_username api m h c hd p).2.extractKeys
       = ["Authorization"]) ∧
    (∀ hd, (get_current_user api m h c hd).2.extractKeys
       = ["Authorization"]) ∧
    (∀ hd b, (update_current_user api m h c hd b).2.extractKeys
       = ["Authorization"]) := by
  refine ⟨fun _ _ _ => rfl, ?_, fun _ _ _ => rfl, ?_,
    fun _ _ _ => rfl, ?_, fun _ _ _ => rfl, fun _ _ => rfl, ?_,
    fun _ _ _ => rfl, ?_, fun _ _ _ => rfl, ?_, ?_,
    ?_, ?_, ?_, ?_, ?_, ?_, ?_, ?_, ?_, ?_, ?_, ?_⟩
  · intro p
    cases hv : get_article_validation p <;> simp [get_article, hv]
  · intro q
    cases hv : get_articles_validation q <;> simp [get_articles, hv]
  · intro p
    cases hv : get_article_comments_validation p <;>
      simp [get_article_comments, hv]
  · simp [get_tags, get_tags_validation]
  · intro b
    cases hv : create_user_validation b <;> simp [create_user, hv]
  · intro b
    cases hv : login_validation b <;> simp [login, hv]
  · intro p
    cases hv : get_profile_by_username_validation p <;>
      simp [get_profile_by_username, hv]
  · intro hd b
    cases hx : api.extract_claims_from_header hd "Authorization" with
    | none => simp [create_article, hx, Option.or]
    | some claims =>
        cases hv : create_article_validation b <;>
          simp [create_article, hx, hv, Option.or]
  · intro hd p
    cases hx : api.extract_claims_from_header hd "Authorization" with
    | none => simp [delete_article, hx, Option.or]
    | some claims =>
        cases hv : delete_article_validation p <;>
          simp [delete_article, hx, hv, Option.or]
  · intro hd q
    cases hx : api.extract_claims_from_header hd "Authorization" with
    | none => simp [get_articles_feed, hx, Option.or]
    | some claims =>
        cases hv : get_articles_feed_validation q <;>
          simp [get_articles_feed, hx, hv, Option.or]
  · intro hd p b
    cases hx : api.extract_claims_from_header hd "Authorization" with
    | none => simp [update_article, hx, Option.or]
    | some claims =>
        cases hv : update_article_validation p b with
        | error e => simp [update_article, hx, hv, Option.or]
        | ok v =>
            obtain ⟨p2, b2⟩ := v
            simp [update_article, hx, hv, Option.or]
  · intro hd p b
    cases hx : api.extract_claims_from_header hd "Authorization" with
    | none => simp [create_article_comment, hx, Option.or]
    | some claims =>
        cases hv : create_article_comment_validation p b with
        | error e => simp [create_article_comment, hx, hv, Option.or]
        | ok v =>
            obtain ⟨p2, b2⟩ := v
            simp [create_article_comment, hx, hv, Option.or]
  · intro hd p
    cases hx : api.extract_claims_from_header hd "Authorization" with
    | none => simp [delete_article_comment, hx, Option.or]
    | some claims =>
        cases hv : delete_article_comment_validation p <;>
          simp [delete_article_comment, hx, hv, Option.or]
  · intro hd p
    cases hx : api.extract_claims_from_header hd "Authorization" with
    | none => simp [create_article_favorite, hx, Option.or]
    | some claims =>
        cases hv : create_article_favorite_validation p <;>
          simp [create_article_favorite, hx, hv, Option.or]
  · intro hd p
    cases hx : api.extract_claims_from_header hd "Authorization" with
    | none => simp [delete_article_favorite, hx, Option.or]
    | some claims =>
        cases hv : delete_article_favorite_validation p <;>
          simp [delete_article_favorite, hx, hv, Option.or]
  · intro hd p
    cases hx : api.extract_claims_from_header hd "Authorization" with
    | none => simp [follow_user_by_username, hx, Option.or]
    | some claims =>
        cases hv : follow_user_by_username_validation p <;>
          simp [follow_user_by_username, hx, hv, Option.or]
  · intro hd p
    cases hx : api.extract_claims_from_header hd "Authorization" with
    | none => simp [unfollow_user_by_username, hx, Option.or]
    | some claims =>
        cases hv : unfollow_user_by_username_validation p <;>
          simp [unfollow_user_by_username, hx, hv, Option.or]
  · intro hd
    cases hx : api.extract_claims_from_header hd "Authorization" with
    | none => simp [get_current_user, hx, Option.or]
    | some claims =>
        simp [get_current_user, hx, Option.or, get_current_user_validation]
  · intro hd b
    cases hx : api.extract_claims_from_header hd "Authorization" with
    | none => simp [update_current_user, hx, Option.or]
    | some claims =>
        cases hv : update_current_user_validation b <;>
          simp [update_current_user, hx, hv, Option.or]

end Conduit
